import Mathlib

/-!
# SenseAudio MusicBrain: verification of the procedural composition engine

Shallow embedding of `src/js/MusicBrain.js` (class `MusicBrain`) and of the
chord-assignment loop in the `applyStructureBtn` click handler
(`src/unnamed/part_002`), together with proofs settling the frozen claims.

Modelling conventions:
* JS numbers that only ever hold integers are modelled as `Int` (MIDI values,
  which may use the `-1` sentinel) or `Nat` (indices, counts, steps);
  quantities that can be fractional (velocities, Markov durations) are `Rat`.
* The JS `%` operator (truncated remainder) is `jsRem`; `Math.round` is
  `jsRound`.
* JS object-literal tables are association lists looked up with `lookupStr`
  (`tbl[key]` returning `undefined` becomes `none`).
* `Math.random()` draws are explicit oracle parameters: an index draw
  `Math.floor(Math.random() * list.length)` becomes a `Nat` parameter reduced
  `% list.length` (the reduction is the identity on the values the real
  generator can produce), and a raw draw becomes a `Rat` parameter.
* JS exceptions (e.g. indexing into `undefined`) become `Except String`.
-/

namespace SenseAudio

/-- JS `%` (truncated remainder, sign of the dividend). -/
def jsRem (a b : Int) : Int := Int.tmod a b

/-- JS `Math.round`: round half toward positive infinity. -/
def jsRound (q : ℚ) : ℚ := ((⌊q + 1/2⌋ : ℤ) : ℚ)

/-- JS object-property lookup on an association list (`tbl[key]`). -/
def lookupStr {α : Type} : List (String × α) → String → Option α
  | [], _ => none
  | (k, v) :: rest, key => if key = k then some v else lookupStr rest key

/-- The inclusive integer range `[lo, lo+1, …, hi]` (JS `for (m = lo; m <= hi; m++)`). -/
def intRange (lo hi : Int) : List Int :=
  (List.range (hi + 1 - lo).toNat).map (fun (k : Nat) => lo + (k : Int))

/-- Random in-range index choice: `list[Math.floor(Math.random() * list.length)]`.
The oracle supplies `n`; `% length` keeps it in the range the JS draw produces. -/
def pickIdx {α : Type} (l : List α) (n : Nat) (d : α) : α :=
  l.getD (n % l.length) d

-- ---------------------------------------------------------------------------
-- Theory tables (constructor of `MusicBrain`)
-- ---------------------------------------------------------------------------

/-- `this.scales` (MusicBrain.js:33-42). -/
def scales : List (String × List Int) :=
  [("Major", [0, 2, 4, 5, 7, 9, 11]),
   ("Minor", [0, 2, 3, 5, 7, 8, 10]),
   ("HarmonicMinor", [0, 2, 3, 5, 7, 8, 11]),
   ("Dorian", [0, 2, 3, 5, 7, 9, 10]),
   ("Mixolydian", [0, 2, 4, 5, 7, 9, 10]),
   ("Blues", [0, 3, 5, 6, 7, 10]),
   ("PentatonicMajor", [0, 2, 4, 7, 9]),
   ("PentatonicMinor", [0, 3, 5, 7, 10])]

/-- One chord definition; display-only fields (`name`, `func`, `vibe`) carry no
behaviour used by the claims, but `name`/`kind` are kept for fidelity
(`kind` is the JS `type` field). -/
structure ChordDef where
  name : String
  kind : String
  intervals : List Int
deriving DecidableEq

/-- `this.chordDegrees` (MusicBrain.js:59-126). -/
def chordDegrees : List (String × List ChordDef) :=
  [("Major",
    [⟨"I", "Major", [0, 4, 7]⟩, ⟨"ii", "Minor", [2, 5, 9]⟩,
     ⟨"iii", "Minor", [4, 7, 11]⟩, ⟨"IV", "Major", [5, 9, 0]⟩,
     ⟨"V", "Major", [7, 11, 2]⟩, ⟨"vi", "Minor", [9, 0, 4]⟩,
     ⟨"vii", "Dim", [11, 2, 5]⟩]),
   ("Minor",
    [⟨"i", "Minor", [0, 3, 7]⟩, ⟨"ii", "Dim", [2, 5, 8]⟩,
     ⟨"III", "Major", [3, 7, 10]⟩, ⟨"iv", "Minor", [5, 8, 0]⟩,
     ⟨"v", "Minor", [7, 10, 2]⟩, ⟨"VI", "Major", [8, 0, 3]⟩,
     ⟨"VII", "Major", [10, 2, 5]⟩]),
   ("HarmonicMinor",
    [⟨"i", "Minor", [0, 3, 7]⟩, ⟨"ii", "Dim", [2, 5, 8]⟩,
     ⟨"III+", "Aug", [3, 7, 11]⟩, ⟨"iv", "Minor", [5, 8, 0]⟩,
     ⟨"V", "Major", [7, 11, 2]⟩, ⟨"VI", "Major", [8, 0, 3]⟩,
     ⟨"vii", "Dim", [11, 2, 5]⟩]),
   ("Dorian",
    [⟨"i", "Minor", [0, 3, 7]⟩, ⟨"ii", "Minor", [2, 5, 9]⟩,
     ⟨"III", "Major", [3, 7, 10]⟩, ⟨"IV", "Major", [5, 9, 0]⟩,
     ⟨"v", "Minor", [7, 10, 2]⟩, ⟨"vi", "Dim", [9, 0, 3]⟩,
     ⟨"VII", "Major", [10, 2, 5]⟩]),
   ("Mixolydian",
    [⟨"I", "Major", [0, 4, 7]⟩, ⟨"ii", "Minor", [2, 5, 9]⟩,
     ⟨"iii", "Dim", [4, 7, 10]⟩, ⟨"IV", "Major", [5, 9, 0]⟩,
     ⟨"v", "Minor", [7, 10, 2]⟩, ⟨"vi", "Minor", [9, 0, 4]⟩,
     ⟨"bVII", "Major", [10, 2, 5]⟩]),
   ("Blues",
    [⟨"I7", "Dom7", [0, 4, 7]⟩, ⟨"IV7", "Dom7", [5, 9, 0]⟩,
     ⟨"V7", "Dom7", [7, 11, 2]⟩, ⟨"I", "Major", [0, 4, 7]⟩,
     ⟨"bVII", "Major", [10, 2, 5]⟩]),
   ("PentatonicMajor",
    [⟨"I", "Major", [0, 4, 7]⟩, ⟨"ii", "Minor", [2, 5, 9]⟩,
     ⟨"iii", "Minor", [4, 7, 11]⟩, ⟨"V", "Major", [7, 11, 2]⟩,
     ⟨"vi", "Minor", [9, 0, 4]⟩]),
   ("PentatonicMinor",
    [⟨"i", "Minor", [0, 3, 7]⟩, ⟨"III", "Major", [3, 7, 10]⟩,
     ⟨"iv", "Minor", [5, 8, 0]⟩, ⟨"v", "Minor", [7, 10, 2]⟩,
     ⟨"VII", "Major", [10, 2, 5]⟩])]

/-- A named vocal range (`this.vocalRanges` value; `label` omitted, display only). -/
structure VocalRange where
  min : Int
  max : Int
deriving DecidableEq

/-- `this.vocalRanges` (MusicBrain.js:129-137). -/
def vocalRanges : List (String × VocalRange) :=
  [("NONE", ⟨0, 127⟩), ("SOPRANO", ⟨60, 84⟩), ("MEZZO", ⟨57, 81⟩),
   ("ALTO", ⟨53, 77⟩), ("TENOR", ⟨48, 72⟩), ("BARITONE", ⟨41, 64⟩),
   ("BASS", ⟨36, 60⟩)]

-- ---------------------------------------------------------------------------
-- getScaleNotes (MusicBrain.js:829-837)
-- ---------------------------------------------------------------------------

/-- `getScaleNotes(rootKey, scaleName)`: the loop runs `for (let i = 0; i < 127; i++)`,
so only MIDI 0..126 are examined. The JS `Set` is modelled as the (duplicate-free,
ascending) list of its members. -/
def getScaleNotes (rootKey : Int) (scaleName : String) : List Int :=
  let indices := (lookupStr scales scaleName).getD [0, 2, 4, 5, 7, 9, 11]
  ((List.range 127).filter
    (fun (i : Nat) => indices.contains (jsRem ((i : Int) - rootKey + 12) 12))).map
    (fun (i : Nat) => (i : Int))

/-- `getScaleNotesArr(root, scaleName, minMidi, maxMidi)` (MusicBrain.js:1390-1397). -/
def getScaleNotesArr (root : Int) (scaleName : String) (minMidi maxMidi : Int) : List Int :=
  (intRange minMidi maxMidi).filter (fun m => (getScaleNotes root scaleName).contains m)

-- ---------------------------------------------------------------------------
-- analyzeBarHarmony (MusicBrain.js:912-924)
-- ---------------------------------------------------------------------------

/-- `analyzeBarHarmony(barNotes, chordDefinition, rootKey)`: only the returned
`score` carries behaviour (the `details`/`chordName` strings are display-only),
so the model returns the score. `barNotes` is the list of the notes' `midi`
fields, the only field the JS reads. -/
def analyzeBarHarmony (barNotes : List Int) (chordDefinition : Option ChordDef)
    (rootKey : Int) : ℚ :=
  match chordDefinition with
  | none => 0
  | some cd =>
      if barNotes.length = 0 then 100
      else
        let allowedPCs := cd.intervals.map (fun i => jsRem (rootKey + i) 12)
        let matchCount :=
          (barNotes.filter (fun n => allowedPCs.contains (jsRem n 12))).length
        jsRound ((matchCount : ℚ) / (barNotes.length : ℚ) * 100)

-- ---------------------------------------------------------------------------
-- pickSmoothNote (MusicBrain.js:1460-1518)
-- ---------------------------------------------------------------------------

/-- The parameter object of `pickSmoothNote` (`min`/`max` keep the JS names). -/
structure PickParams where
  lastMidi : Int
  chordIntervals : List Int
  rootKey : Int
  scaleNotes : List Int
  min : Int
  max : Int
  isStrongBeat : Bool
  isPhraseStart : Bool
deriving DecidableEq

/-- The in-range scale tones collected by the `for (m = min; m <= max; m++)`
loop of `pickSmoothNote`. -/
def scaleTonesIn (scaleNotes : List Int) (lo hi : Int) : List Int :=
  (intRange lo hi).filter (fun m => scaleNotes.contains m)

/-- Score of one candidate (`pickSmoothNote` steps A, B, C); `j` is the
`Math.random()` draw for step C (`score += Math.random() * 8`). -/
def pickScore (p : PickParams) (allowedPCs : List Int) (note : Int) (j : ℚ) : ℚ :=
  let absDist := (note - p.lastMidi).natAbs
  let prox : ℚ :=
    if absDist = 0 then -5
    else if absDist ≤ 2 then 20
    else if absDist ≤ 4 then 10
    else if absDist ≤ 5 then 5
    else -(2 * (absDist : ℚ))
  let harm : ℚ :=
    if allowedPCs.contains (jsRem note 12) then
      (if p.isStrongBeat then 15 else 5)
    else
      (if p.isStrongBeat then -5 else 5)
  prox + harm + 8 * j

/-- The `forEach` arg-max with `bestScore = -Infinity` (modelled as `none`) and
strict improvement; `bestNote` is initialised to `candidates[0]`. -/
def pickBest (cands : List Int) (score : Nat → Int → ℚ) : Int :=
  (cands.enum.foldl
    (fun (acc : Int × Option ℚ) ni =>
      let sc := score ni.1 ni.2
      match acc.2 with
      | none => (ni.2, some sc)
      | some b => if sc > b then (ni.2, some sc) else acc)
    (cands.headD 0, none)).1

/-- `pickSmoothNote(params)`; `jitter i` is the `Math.random()` draw made for
the `i`-th candidate. Returns `none` for the JS `null`. -/
def pickSmoothNote (p : PickParams) (jitter : Nat → ℚ) : Option Int :=
  let allowedPCs := p.chordIntervals.map (fun i => jsRem (p.rootKey + i) 12)
  let scaleTones := scaleTonesIn p.scaleNotes p.min p.max
  let chordTones := scaleTones.filter (fun m => allowedPCs.contains (jsRem m 12))
  if scaleTones.isEmpty then none
  else if p.isPhraseStart || p.lastMidi == -1 then
    (if chordTones.length > 0 then some (chordTones.getD (chordTones.length / 2) 0)
     else some (scaleTones.getD (scaleTones.length / 2) 0))
  else
    some (pickBest scaleTones (fun i note => pickScore p allowedPCs note (jitter i)))

-- ---------------------------------------------------------------------------
-- Melody engine helpers (MusicBrain.js:1404-1455)
-- ---------------------------------------------------------------------------

/-- One entry of a melodic rhythm pattern (`{duration, isRest}`). -/
structure RhythmEntry where
  duration : Nat
  isRest : Bool
deriving DecidableEq

/-- `generateMelodicRhythm(complexity)` (MusicBrain.js:1404-1429); `sel` is the
`Math.random()` index draw into the selected motif pool. -/
def generateMelodicRhythm (complexity : String) (sel : Nat) : List RhythmEntry :=
  let motifs : List (String × List (List Nat)) :=
    [("LOW", [[4, 4, 8], [6, 2, 8], [8, 4, 4], [4, 4, 4, 4]]),
     ("MEDIUM", [[3, 3, 2, 4, 4], [4, 2, 2, 8], [2, 2, 4, 4, 4], [4, 4, 2, 2, 4], [6, 2, 6, 2]]),
     ("HIGH", [[2, 2, 2, 2, 4, 4], [3, 1, 3, 1, 4, 4], [2, 4, 2, 4, 4]])]
  let list := (lookupStr motifs complexity).getD
    [[3, 3, 2, 4, 4], [4, 2, 2, 8], [2, 2, 4, 4, 4], [4, 4, 2, 2, 4], [6, 2, 6, 2]]
  (pickIdx list sel []).map (fun d => ⟨d, false⟩)

/-- `variateRhythmSimple(pattern)` (MusicBrain.js:1434-1443): split the first
entry in two halves when its duration is at least 4. The JS halving is float
division; every duration reaching it from `generateMelodicRhythm` is even, so
`Nat` division coincides. -/
def variateRhythmSimple (p : List RhythmEntry) : List RhythmEntry :=
  match p with
  | [] => []
  | first :: rest =>
      if first.duration ≥ 4 then
        ⟨first.duration / 2, false⟩ :: ⟨first.duration / 2, false⟩ :: rest
      else first :: rest

/-- `getIntroArpeggio()` (MusicBrain.js:1448-1455). -/
def getIntroArpeggio : List RhythmEntry :=
  [⟨4, false⟩, ⟨4, true⟩, ⟨4, false⟩, ⟨4, true⟩]

-- ---------------------------------------------------------------------------
-- generateMelody (MusicBrain.js:965-1066)
-- ---------------------------------------------------------------------------

/-- The fields of the caller-owned song state that `generateMelody` and
`generateMelodyMarkov` read. -/
structure SongState where
  rootKey : Int
  scaleName : String
  stepsPerBar : Nat
  totalBars : Nat
  barChords : List Nat
  barStructure : List String
  vocalRangeType : String

/-- `(state.barStructure && state.barStructure[bar]) || 'NONE'`: an
out-of-range access or an empty string (both falsy) yield `'NONE'`. -/
def sectionAtOrNone (st : SongState) (bar : Nat) : String :=
  match st.barStructure.get? bar with
  | some s => if s = "" then "NONE" else s
  | none => "NONE"

/-- `state.barChords[currentBar] || 0` (an out-of-range access is `undefined`,
hence falsy, hence `0`; the stored values are chord indices, naturals). -/
def chordIdxAt (st : SongState) (bar : Nat) : Nat :=
  st.barChords.getD bar 0

/-- One generated melody note (`{midi, time, duration, velocity}`). -/
structure MelodyNote where
  midi : Int
  time : Nat
  duration : Nat
  velocity : ℚ
deriving DecidableEq

/-- The `Math.random()` draws `generateMelody` makes, as explicit oracles:
`rhythmSel` is the motif index draw of `generateMelodicRhythm`; `restAt b` is
`Math.random() > 0.5` for the phrase-end rest of bar offset `b`;
`jitter b cursor i` is the draw for candidate `i` of the `pickSmoothNote` call
at bar offset `b`, step `cursor`. -/
structure MelodyRand where
  rhythmSel : Nat
  restAt : Nat → Bool
  jitter : Nat → Nat → Nat → ℚ

/-- Rhythm selection for bar offset `b` (MusicBrain.js:995-1017, before the
Intro exception). -/
def melodyBarPattern (mainRhythm : List RhythmEntry) (spb b length : Nat)
    (rnd : MelodyRand) : List RhythmEntry :=
  if b = length - 1 then [⟨spb, false⟩]
  else if b % 4 = 3 then [⟨8, false⟩, ⟨8, rnd.restAt b⟩]
  else if b % 4 = 2 then variateRhythmSimple mainRhythm
  else mainRhythm

/-- Velocity of an emitted melody note (MusicBrain.js:1048-1057). -/
def melodyVel (sec : String) (strong : Bool) : ℚ :=
  let v0 : ℚ := if sec = "CHORUS" then 0.95 else 0.8
  let v1 := if strong then v0 else v0 - 0.15
  max 0.1 (min 1 v1)

/-- The note-placement loop of one bar (MusicBrain.js:1024-1063), carrying the
step cursor and `lastMidi`. A `none` chord definition (out-of-range chord
index) raises the JS `TypeError` at the first non-rest entry, when
`pickSmoothNote` dereferences `chordDef.intervals`. A picked note is emitted
only when truthy (`if (generatedMidi)`), i.e. non-zero. -/
def placeMelodyNotes (spb bar posInPhrase : Nat) (sec : String)
    (chordOpt : Option ChordDef) (rootKey : Int) (scaleNotes : List Int)
    (tMin tMax : Int) (jitter : Nat → Nat → ℚ) :
    List RhythmEntry → Nat → Int → Except String (List MelodyNote × Int)
  | [], _, last => .ok ([], last)
  | nd :: rest, cursor, last =>
      if cursor ≥ spb then .ok ([], last)
      else
        let dur := if cursor + nd.duration > spb then spb - cursor else nd.duration
        let strong := cursor % 4 = 0
        let absTime := bar * spb + cursor
        if nd.isRest then
          placeMelodyNotes spb bar posInPhrase sec chordOpt rootKey scaleNotes
            tMin tMax jitter rest (cursor + dur) last
        else
          match chordOpt with
          | none => .error "TypeError: chordDef is undefined"
          | some chord =>
              match pickSmoothNote
                  ⟨last, chord.intervals, rootKey, scaleNotes, tMin, tMax,
                    decide strong, decide (cursor = 0 ∧ posInPhrase = 0)⟩
                  (jitter cursor) with
              | some midi =>
                  if midi ≠ 0 then
                    match placeMelodyNotes spb bar posInPhrase sec chordOpt
                        rootKey scaleNotes tMin tMax jitter rest (cursor + dur) midi with
                    | .ok (ns, l) =>
                        .ok (⟨midi, absTime, dur, melodyVel sec (decide strong)⟩ :: ns, l)
                    | .error e => .error e
                  else
                    placeMelodyNotes spb bar posInPhrase sec chordOpt rootKey
                      scaleNotes tMin tMax jitter rest (cursor + dur) last
              | none =>
                  placeMelodyNotes spb bar posInPhrase sec chordOpt rootKey
                    scaleNotes tMin tMax jitter rest (cursor + dur) last

/-- One iteration of the bar loop of `generateMelody` (MusicBrain.js:987-1064):
resolve section, chord and rhythm for bar offset `b`, then place its notes.
`this.chordDegrees[state.scaleName]` being `undefined` raises immediately
(MusicBrain.js:993). -/
def melodyBarStep (startBar length : Nat) (st : SongState) (rnd : MelodyRand)
    (mainRhythm : List RhythmEntry) (scaleNotes : List Int) (tMin tMax : Int)
    (b : Nat) (acc : List MelodyNote × Int) :
    Except String (List MelodyNote × Int) :=
  let currentBar := startBar + b
  let currentSection := sectionAtOrNone st currentBar
  let chordIdx := chordIdxAt st currentBar
  match lookupStr chordDegrees st.scaleName with
  | none => .error "TypeError: chordDegrees[scaleName] is undefined"
  | some tbl =>
      let chordOpt := tbl.get? chordIdx
      let pat0 := melodyBarPattern mainRhythm st.stepsPerBar b length rnd
      let pat := if currentSection = "INTRO" then getIntroArpeggio else pat0
      match placeMelodyNotes st.stepsPerBar currentBar (b % 4) currentSection
          chordOpt st.rootKey scaleNotes tMin tMax (rnd.jitter b) pat 0 acc.2 with
      | .ok (ns, l) => .ok (acc.1 ++ ns, l)
      | .error e => .error e

/-- The bar loop of `generateMelody`, with its `break` at `state.totalBars`;
`remaining` counts the bars still to process (initially `length`). -/
def melodyLoop (startBar length : Nat) (st : SongState) (rnd : MelodyRand)
    (mainRhythm : List RhythmEntry) (scaleNotes : List Int) (tMin tMax : Int) :
    Nat → Nat → (List MelodyNote × Int) → Except String (List MelodyNote × Int)
  | 0, _, acc => .ok acc
  | r + 1, b, acc =>
      if startBar + b ≥ st.totalBars then .ok acc
      else
        match melodyBarStep startBar length st rnd mainRhythm scaleNotes tMin tMax b acc with
        | .ok acc2 => melodyLoop startBar length st rnd mainRhythm scaleNotes tMin tMax r (b + 1) acc2
        | .error e => .error e

/-- The scale-note set `generateMelody` works against (MusicBrain.js:967). -/
def melodyScaleNotesOf (st : SongState) : List Int :=
  getScaleNotes st.rootKey st.scaleName

/-- The adjusted lower vocal bound of `generateMelody` (MusicBrain.js:968-978):
`range.min`, raised by 4 when the starting section is a Chorus. -/
def melodyTMin (st : SongState) (startBar : Nat) : Int :=
  let range := (lookupStr vocalRanges st.vocalRangeType).getD ⟨48, 84⟩
  if sectionAtOrNone st startBar = "CHORUS" then range.min + 4 else range.min

/-- The adjusted upper vocal bound of `generateMelody` (MusicBrain.js:968-978):
`range.max`, lowered by 4 when the starting section is a Verse. -/
def melodyTMax (st : SongState) (startBar : Nat) : Int :=
  let range := (lookupStr vocalRanges st.vocalRangeType).getD ⟨48, 84⟩
  if sectionAtOrNone st startBar = "VERSE" then range.max - 4 else range.max

/-- `generateMelody(startBar, length, complexity, state)` including the final
`lastMidi`; the adjusted vocal range (MusicBrain.js:968-978) and the shared
main rhythm are computed once up front. -/
def melodyRun (startBar length : Nat) (complexity : String) (st : SongState)
    (rnd : MelodyRand) : Except String (List MelodyNote × Int) :=
  melodyLoop startBar length st rnd (generateMelodicRhythm complexity rnd.rhythmSel)
    (melodyScaleNotesOf st) (melodyTMin st startBar) (melodyTMax st startBar)
    length 0 ([], -1)

/-- `generateMelody` returns the accumulated note list. -/
def generateMelody (startBar length : Nat) (complexity : String) (st : SongState)
    (rnd : MelodyRand) : Except String (List MelodyNote) :=
  (melodyRun startBar length complexity st rnd).map Prod.fst

-- ---------------------------------------------------------------------------
-- generateGoodMotif / variateMotif (MusicBrain.js:1313-1362)
-- ---------------------------------------------------------------------------

/-- One entry of a Markov motif (`{dur, type: 'NOTE'|'REST'}`; the `type` tag
is modelled as `isRest`). Durations can be fractional (`beat = stepsPerBar/4`). -/
structure MotifEntry where
  dur : ℚ
  isRest : Bool
deriving DecidableEq

/-- JS `Math.trunc`-style integer part (toward zero). -/
def qtrunc (x : ℚ) : Int := if 0 ≤ x then ⌊x⌋ else ⌈x⌉

/-- JS `%` on fractional numbers: `a - b * Math.trunc(a / b)`. A zero divisor
gives `NaN` in JS; it is unreachable here (`beat > 0`) and modelled as `0`. -/
def jsRemQ (a b : ℚ) : ℚ := if b = 0 then 0 else a - b * (qtrunc (a / b) : ℚ)

/-- `generateGoodMotif(complexity, stepsPerBar)` (MusicBrain.js:1313-1345).
This second class-method definition overrides the three-argument one at
MusicBrain.js:1227-1306 (later duplicate method wins in a JS class), so the
`vibe` argument passed at the call sites is ignored. `sel` is the pool index
draw. -/
def generateGoodMotif (complexity : String) (stepsPerBar : Nat) (sel : Nat) :
    List MotifEntry :=
  let beat : ℚ := (stepsPerBar : ℚ) / 4
  let patternsLow : List (List ℚ) :=
    [[beat, beat, beat, beat],
     [beat * 1.5, beat * 0.5, beat, beat],
     [beat * 2, beat, beat]]
  let patternsHigh : List (List ℚ) :=
    [[beat / 2, beat / 2, beat, beat / 2, beat / 2, beat],
     [beat * 0.75, beat * 0.25, beat, beat * 0.75, beat * 0.25, beat],
     [beat, beat / 2, beat / 2, beat / 2, beat / 2, beat]]
  let source :=
    if complexity = "MEDIUM" then patternsLow ++ patternsHigh
    else if complexity = "HIGH" then patternsHigh
    else patternsLow
  (pickIdx source sel []).map (fun d => ⟨((max 1 ⌊d⌋ : ℤ) : ℚ), false⟩)

/-- `variateMotif(motif)` (MusicBrain.js:1350-1362): halve the first note of
duration at least 4 and insert the second half after it. -/
def variateMotif : List MotifEntry → List MotifEntry
  | [] => []
  | e :: rest =>
      if e.dur ≥ 4 ∧ e.isRest = false then
        ⟨((⌊e.dur / 2⌋ : ℤ) : ℚ), false⟩ :: ⟨((⌊e.dur / 2⌋ : ℤ) : ℚ), false⟩ :: rest
      else e :: variateMotif rest

-- ---------------------------------------------------------------------------
-- generateMelodyMarkov (MusicBrain.js:1079-1222)
-- ---------------------------------------------------------------------------

/-- One note generated by the Markov strategy; times can be fractional when
`stepsPerBar` is not a multiple of 4. -/
structure MarkovNote where
  midi : Int
  time : ℚ
  duration : ℚ
  velocity : ℚ
deriving DecidableEq

/-- The `Math.random()` draws of `generateMelodyMarkov`: `motifSel k` is the
pool index draw of the `k`-th `generateGoodMotif` call building the motif bank
(0 = INTRO … 4 = OUTRO, in code order); the remaining draws are indexed by
`(bar offset, note index within the bar)`. -/
structure MarkovRand where
  motifSel : Nat → Nat
  starterSel : Nat → Nat → Nat
  stepR : Nat → Nat → ℚ
  velR : Nat → Nat → ℚ

/-- Stable insertion into a list sorted by `key` (new element goes after equal
keys), modelling the stable JS `Array.prototype.sort`. -/
def insertByKey (key : Int → Int) (x : Int) : List Int → List Int
  | [] => [x]
  | y :: ys => if key x < key y then x :: y :: ys else y :: insertByKey key x ys

/-- Stable sort by `key`: the JS `candidates.sort((a, b) => scoreA - scoreB)`. -/
def sortByKey (key : Int → Int) (l : List Int) : List Int :=
  l.foldl (fun acc x => insertByKey key x acc) []

/-- The sort key of the Markov candidate ordering (MusicBrain.js:1185-1191):
distance to the previous pitch, with exact repetition costed `100`. -/
def markovKey (lastMidi : Int) (a : Int) : Int :=
  let d := ((a - lastMidi).natAbs : Int)
  if d = 0 then 100 else d

/-- Pitch selection for one Markov note (MusicBrain.js:1153-1201). -/
def markovPickPitch (validRangeNotes : List Int) (chordClasses : List Int)
    (strong : Bool) (lastMidi : Int) (starterSel : Nat) (r : ℚ) : Int :=
  if lastMidi = -1 then
    let midRange := validRangeNotes.filter (fun n => 60 ≤ n ∧ n ≤ 72)
    let starters0 := if midRange.length > 0 then midRange else validRangeNotes
    let starters :=
      if chordClasses.length > 0 then
        let chordStarters := starters0.filter (fun n => chordClasses.contains (jsRem n 12))
        if chordStarters.length > 0 then chordStarters else starters0
      else starters0
    pickIdx starters starterSel 0
  else
    let neighbors := validRangeNotes.filter (fun n => ((n - lastMidi).natAbs : Int) ≤ 7)
    let cands0 :=
      if strong ∧ chordClasses.length > 0 then
        neighbors.filter (fun n => chordClasses.contains (jsRem n 12))
      else []
    let cands1 := if cands0.length = 0 then neighbors else cands0
    let candidates :=
      if cands1.length = 0 then
        validRangeNotes.filter (fun n => ((n - lastMidi).natAbs : Int) ≤ 12)
      else cands1
    if candidates.length > 0 then
      let sorted := sortByKey (markovKey lastMidi) candidates
      let idx := if r > 0.9 then min 2 (candidates.length - 1) else if r > 0.6 then 1 else 0
      sorted.getD (min idx (candidates.length - 1)) 0
    else lastMidi

/-- Velocity of one Markov note (MusicBrain.js:1204-1207 and the `toFixed(2)`
at 1213). -/
def markovVel (sec : String) (strong : Bool) (vr : ℚ) : ℚ :=
  let v0 : ℚ := if sec = "CHORUS" then 0.85 else 0.75
  let v1 := if strong then v0 + 0.1 else v0
  let v2 := v1 + (vr * 0.1 - 0.05)
  jsRound (v2 * 100) / 100

/-- The per-bar note loop of `generateMelodyMarkov` (MusicBrain.js:1137-1218),
carrying `(cursor, note index, lastMidi)`. -/
def markovPlaceNotes (spb beat : ℚ) (absoluteBar : Nat) (sec : String)
    (validRangeNotes chordClasses : List Int) (rnd : MarkovRand) (b : Nat) :
    List MotifEntry → ℚ → Nat → Int → List MarkovNote × Int
  | [], _, _, last => ([], last)
  | nd :: rest, cursor, noteIdx, last =>
      if cursor ≥ spb then ([], last)
      else
        let duration := if cursor + nd.dur > spb then spb - cursor else nd.dur
        if nd.isRest then
          markovPlaceNotes spb beat absoluteBar sec validRangeNotes chordClasses rnd b
            rest (cursor + duration) noteIdx last
        else
          let absTime := (absoluteBar : ℚ) * spb + cursor
          let strong := jsRemQ cursor beat = 0
          let target := markovPickPitch validRangeNotes chordClasses strong last
            (rnd.starterSel b noteIdx) (rnd.stepR b noteIdx)
          let note : MarkovNote :=
            ⟨target, absTime, duration, markovVel sec (decide strong) (rnd.velR b noteIdx)⟩
          let res := markovPlaceNotes spb beat absoluteBar sec validRangeNotes chordClasses
            rnd b rest (cursor + duration) (noteIdx + 1) target
          (note :: res.1, res.2)

/-- One bar of `generateMelodyMarkov` (MusicBrain.js:1104-1134): resolve
section, motif, chord classes and phrase pattern, then place the notes. -/
def markovBarStep (spb beat : ℚ) (motifBank : List (String × List MotifEntry))
    (verseMotif : List MotifEntry) (allScaleNotes : List Int)
    (chordNotesMap : Nat → List Int) (structureList : List String)
    (startBar : Nat) (rnd : MarkovRand) (b : Nat) (last : Int) :
    List MarkovNote × Int :=
  let absoluteBar := startBar + b
  let currentSection :=
    match structureList.get? absoluteBar with
    | some s => if s = "" then "VERSE" else s
    | none => "VERSE"
  let baseMotif := (lookupStr motifBank currentSection).getD verseMotif
  let chordClasses := (chordNotesMap absoluteBar).map (fun n => jsRem n 12)
  let phrasePos := b % 4
  let currentPattern :=
    if phrasePos = 3 then [⟨beat * 2, false⟩, ⟨beat * 2, true⟩]
    else if phrasePos = 2 then variateMotif baseMotif
    else baseMotif
  let validRangeNotes :=
    if currentSection = "CHORUS" then allScaleNotes.filter (fun n => n ≥ 65)
    else allScaleNotes
  markovPlaceNotes spb beat absoluteBar currentSection validRangeNotes chordClasses
    rnd b currentPattern 0 0 last

/-- The bar loop of `generateMelodyMarkov`. -/
def markovLoop (spb beat : ℚ) (motifBank : List (String × List MotifEntry))
    (verseMotif : List MotifEntry) (allScaleNotes : List Int)
    (chordNotesMap : Nat → List Int) (structureList : List String)
    (startBar : Nat) (rnd : MarkovRand) :
    Nat → Nat → Int → List MarkovNote
  | 0, _, _ => []
  | r + 1, b, last =>
      let res := markovBarStep spb beat motifBank verseMotif allScaleNotes
        chordNotesMap structureList startBar rnd b last
      res.1 ++ markovLoop spb beat motifBank verseMotif allScaleNotes
        chordNotesMap structureList startBar rnd r (b + 1) res.2

/-- `generateMelodyMarkov(root, scaleName, chordNotesMap, startBar, numBars,
complexity, state)`. `state.stepsPerBar` is only honoured when truthy
(`0` keeps the default 16); the scale-note pool is restricted to MIDI 55..84. -/
def generateMelodyMarkov (root : Int) (scaleName : String)
    (chordNotesMap : Nat → List Int) (startBar numBars : Nat)
    (complexity : String) (st : SongState) (rnd : MarkovRand) : List MarkovNote :=
  let stepsPerBar := if st.stepsPerBar = 0 then 16 else st.stepsPerBar
  let beat : ℚ := (stepsPerBar : ℚ) / 4
  let allScaleNotes := getScaleNotesArr root scaleName 55 84
  let motifBank : List (String × List MotifEntry) :=
    [("INTRO", generateGoodMotif complexity stepsPerBar (rnd.motifSel 0)),
     ("VERSE", generateGoodMotif complexity stepsPerBar (rnd.motifSel 1)),
     ("CHORUS", generateGoodMotif complexity stepsPerBar (rnd.motifSel 2)),
     ("BRIDGE", generateGoodMotif complexity stepsPerBar (rnd.motifSel 3)),
     ("OUTRO", generateGoodMotif complexity stepsPerBar (rnd.motifSel 4))]
  let verseMotif := generateGoodMotif complexity stepsPerBar (rnd.motifSel 1)
  markovLoop (stepsPerBar : ℚ) beat motifBank verseMotif allScaleNotes
    chordNotesMap st.barStructure startBar rnd numBars 0 (-1)

-- ---------------------------------------------------------------------------
-- getDrumPattern (MusicBrain.js:1532-1722)
-- ---------------------------------------------------------------------------

/-- The three 16-step rows of one genre's drum table. -/
structure DrumRow where
  kick : List Bool
  snare : List Bool
  hat : List Bool
deriving DecidableEq

/-- Converts the 0/1 literals of the JS tables to `Bool` (JS truthiness of
`pt.kick[s]`). -/
def bits (l : List Nat) : List Bool := l.map (fun x => x ≠ 0)

/-- The `patterns` table of `getDrumPattern` (MusicBrain.js:1544-1588). -/
def drumPatterns : List (String × DrumRow) :=
  [("ROCK", ⟨bits [1,0,0,0, 0,0,1,0, 1,0,0,0, 0,0,1,0],
             bits [0,0,0,0, 1,0,0,0, 0,0,0,0, 1,0,0,0],
             bits [1,1,1,1, 1,1,1,1, 1,1,1,1, 1,1,1,1]⟩),
   ("POP", ⟨bits [1,0,0,0, 0,0,0,0, 1,0,0,0, 0,0,1,0],
            bits [0,0,0,0, 1,0,0,0, 0,0,0,0, 1,0,0,0],
            bits [1,1,1,1, 1,1,1,1, 1,1,1,1, 1,1,1,1]⟩),
   ("TECHNO", ⟨bits [1,0,0,0, 1,0,0,0, 1,0,0,0, 1,0,0,0],
               bits [0,0,0,0, 1,0,0,0, 0,0,0,0, 1,0,0,0],
               bits [0,0,1,0, 0,0,1,0, 0,0,1,0, 0,0,1,0]⟩),
   ("EDM", ⟨bits [1,0,0,0, 1,0,0,0, 1,0,0,0, 1,0,0,0],
            bits [0,0,0,0, 1,0,0,0, 0,0,0,0, 1,0,0,0],
            bits [0,0,1,0, 0,0,1,0, 0,0,1,0, 0,0,1,0]⟩),
   ("HIPHOP", ⟨bits [1,0,0,0, 0,0,0,0, 1,0,0,0, 0,0,0,0],
               bits [0,0,0,0, 0,0,0,0, 1,0,0,0, 0,0,0,0],
               bits [1,0,1,0, 1,1,1,0, 1,0,1,0, 1,0,1,1]⟩),
   ("LOFI", ⟨bits [1,0,0,0, 0,0,0,0, 0,0,1,0, 0,0,0,0],
             bits [0,0,0,0, 1,0,0,0, 0,0,0,0, 1,0,0,0],
             bits [1,0,1,0, 1,0,1,0, 1,0,1,0, 1,0,1,0]⟩),
   ("LATIN", ⟨bits [1,0,0,0, 1,0,0,0, 1,0,0,0, 1,0,0,0],
              bits [0,0,0,1, 0,0,1,0, 0,0,0,1, 0,0,1,0],
              bits [1,0,1,0, 1,0,1,0, 1,0,1,0, 1,0,1,0]⟩),
   ("PERSIAN", ⟨bits [1,0,0,0, 0,0,1,0, 1,0,0,0, 0,0,0,0],
                bits [0,0,0,0, 1,0,0,0, 0,0,0,0, 1,0,0,1],
                bits [1,1,1,1, 1,1,1,1, 1,1,1,1, 1,1,1,1]⟩)]

/-- Strategy C of the transition logic (MusicBrain.js:1615-1672), for `s ≥ 8`:
genre-specific buildup fills, with the inner (partly dead) fallback chain of
lines 1644-1667 for genres not matched by the outer chain. Drum MIDI numbers:
KICK 36, SNARE 38, CHAT 42, OHAT 46, CRASH 49, LO_TOM 41, MID_TOM 45,
HI_TOM 48. -/
def drumStrategyC (genre next : String) (s : Nat) : List Nat :=
  if genre = "ROCK" then
    (if s = 8 ∨ s = 9 then [38] else []) ++ (if s = 10 ∨ s = 11 then [45] else []) ++
    (if s = 12 ∨ s = 13 then [41] else []) ++ (if s = 14 then [36] else []) ++
    (if s = 15 then [38] else [])
  else if genre = "POP" then
    (if s = 8 ∨ s = 9 then [38] else []) ++ (if s = 10 then [36] else []) ++
    (if s = 11 then [45] else []) ++ (if s = 12 then [36] else []) ++
    (if s = 13 then [48] else []) ++ (if s = 14 then [38, 41] else [])
  else if genre = "TECHNO" then
    [38] ++ (if s % 2 = 0 then [36] else [])
  else if genre = "TRAP" then
    (if s = 8 then [38] else []) ++ (if s = 9 then [38] else []) ++
    (if s = 10 then [38] else []) ++ (if s = 13 then [36] else []) ++
    (if s = 14 then [38] else []) ++ (if s = 15 then [38] else [])
  else
    if next = "CHORUS" ∨ next = "OUTRO" ∨ 8 ≤ s then
      if genre = "ROCK" ∨ genre = "PUNK_ROCK" then []
      else if genre = "POP" then []
      else if genre = "TECHNO" ∨ genre = "EDM" then []
      else if genre = "HIPHOP" ∨ genre = "TRAP" then
        (if s = 8 then [38] else []) ++ (if s = 9 then [38] else []) ++
        (if s = 10 then [38] else []) ++ (if s = 13 then [36] else []) ++
        (if s = 14 then [38] else []) ++ (if s = 15 then [38] else [])
      else
        (if s = 14 then [38] else []) ++ (if s = 15 then [38] else [])
    else []

/-- The transition/fill logic (MusicBrain.js:1593-1674); `some ns` models an
early `return notesToAdd`, `none` a fall-through to the base patterns. -/
def drumTransitionNotes (genre cur next : String) (s : Nat) : Option (List Nat) :=
  if cur = "INTRO" then
    if 14 ≤ s then
      some ((if s = 14 then [38] else []) ++ (if s = 15 then [38] else []))
    else none
  else if cur = "CHORUS" ∧ next ≠ "CHORUS" ∧ next ≠ "OUTRO" then
    if 12 ≤ s then
      some ((if s = 12 then [48] else []) ++ (if s = 13 then [45] else []) ++
        (if s = 14 then [41] else []))
    else none
  else if next = "CHORUS" ∨ next = "OUTRO" ∨ 8 ≤ s then
    if 8 ≤ s then some (drumStrategyC genre next s) else none
  else none

/-- The steady-state base patterns (MusicBrain.js:1678-1719), in push order
kick, snare, hat, crash. -/
def drumBaseNotes (genre cur : String) (pt : DrumRow) (s stepIndex : Nat) : List Nat :=
  if cur = "PRE_CHORUS" then
    (if s % 4 = 0 then [36] else []) ++ (if s % 2 = 0 then [42] else []) ++
    (if s = 7 ∨ s = 15 then [38] else [])
  else
    let kickSeg :=
      if cur = "INTRO" then (if s = 0 ∨ s = 8 then [36] else [])
      else if cur = "SOLO" then (if pt.kick.getD s false then [36] else [])
      else if cur ≠ "BRIDGE" then (if pt.kick.getD s false then [36] else [])
      else []
    let snareSeg :=
      if cur ≠ "INTRO" ∧ cur ≠ "OUTRO" ∧ pt.snare.getD s false then [38] else []
    let hatSeg :=
      if cur = "CHORUS" ∨ cur = "SOLO" then
        (if genre ≠ "TECHNO" then (if s % 4 = 2 then [46] else [42])
         else (if pt.hat.getD s false then [42] else []))
      else (if pt.hat.getD s false then [42] else [])
    let crashSeg := if (cur = "CHORUS" ∨ cur = "SOLO") ∧ stepIndex = 0 then [49] else []
    kickSeg ++ snareSeg ++ hatSeg ++ crashSeg

/-- `getDrumPattern(genre, currentSection, nextSection, stepIndex, stepsPerBar,
isTransition)`. With `stepsPerBar > 0`, `s = floor(stepIndex / (stepsPerBar/16))
% 16` is `(16 * stepIndex / stepsPerBar) % 16` and
`subStep = stepIndex % (stepsPerBar/16)` is zero iff `stepsPerBar` divides
`16 * stepIndex`; with `stepsPerBar = 0` every JS guard compares against `NaN`
and the function returns `[]`. -/
def getDrumPattern (genre cur next : String) (stepIndex stepsPerBar : Nat)
    (isTransition : Bool) : List Nat :=
  if stepsPerBar = 0 then []
  else
    let s := (stepIndex * 16 / stepsPerBar) % 16
    let subZero := (stepIndex * 16) % stepsPerBar = 0
    let pt := (lookupStr drumPatterns genre).getD
      ⟨bits [1,0,0,0, 0,0,0,0, 1,0,0,0, 0,0,1,0],
       bits [0,0,0,0, 1,0,0,0, 0,0,0,0, 1,0,0,0],
       bits [1,1,1,1, 1,1,1,1, 1,1,1,1, 1,1,1,1]⟩
    match (if isTransition ∧ subZero then drumTransitionNotes genre cur next s else none) with
    | some ns => ns
    | none => if subZero then drumBaseNotes genre cur pt s stepIndex else []

/-- The whole-song drum generation of `generateDrumsForWholeSong`
(src/unnamed/part_002:1140-1173): per bar, resolve sections and the transition
flag, then call `getDrumPattern` with the bar-relative step `s`, placing the
returned drum MIDI notes at `bar * stepsPerBar + s` (velocities are
display/mix data and omitted). Out-of-range structure reads are `undefined`
in JS, modelled as `""`. -/
def drumSongNotes (genre : String) (barStructure : List String)
    (totalBars spb : Nat) : List (Nat × Nat) :=
  ((List.range totalBars).map (fun bar =>
    let cur := barStructure.getD bar ""
    let next := if bar < totalBars - 1 then barStructure.getD (bar + 1) "" else "OUTRO"
    let isTr := decide (cur ≠ next) || decide (bar = totalBars - 1)
    ((List.range spb).map (fun s =>
      (getDrumPattern genre cur next s spb isTr).map (fun m => (m, bar * spb + s)))).flatten)).flatten

-- ---------------------------------------------------------------------------
-- Song templates and generateSongStructure (MusicBrain.js:219-379, 1733-1747)
-- ---------------------------------------------------------------------------

/-- One run-length entry `{type, len}` of a template structure. -/
structure TemplatePart where
  type : String
  len : Nat
deriving DecidableEq

/-- A song template; `parts` is the JS `structure` field (a Lean keyword);
`label`, `bpm` and `desc` are display-only and omitted. -/
structure SongTemplate where
  genre : String
  parts : List TemplatePart
deriving DecidableEq

/-- The `POP_RADIO` template, also the fallback of `generateSongStructure`. -/
def popRadioTemplate : SongTemplate :=
  ⟨"POP",
   [⟨"INTRO", 4⟩, ⟨"VERSE", 8⟩, ⟨"PRE_CHORUS", 4⟩, ⟨"CHORUS", 8⟩,
    ⟨"VERSE", 8⟩, ⟨"PRE_CHORUS", 4⟩, ⟨"CHORUS", 8⟩,
    ⟨"BRIDGE", 8⟩, ⟨"CHORUS", 16⟩, ⟨"OUTRO", 4⟩]⟩

/-- `this.songTemplates` (MusicBrain.js:219-379). -/
def songTemplates : List (String × SongTemplate) :=
  [("POP_RADIO", popRadioTemplate),
   ("POP_SHORT",
    ⟨"POP", [⟨"INTRO", 4⟩, ⟨"VERSE", 8⟩, ⟨"CHORUS", 8⟩, ⟨"VERSE", 8⟩,
             ⟨"CHORUS", 8⟩, ⟨"OUTRO", 4⟩]⟩),
   ("POP_EPIC",
    ⟨"POP", [⟨"INTRO", 4⟩, ⟨"VERSE", 8⟩, ⟨"PRE_CHORUS", 4⟩, ⟨"CHORUS", 8⟩,
             ⟨"VERSE", 8⟩, ⟨"PRE_CHORUS", 4⟩, ⟨"CHORUS", 8⟩, ⟨"SOLO", 8⟩,
             ⟨"BRIDGE", 8⟩, ⟨"CHORUS", 16⟩, ⟨"OUTRO", 8⟩]⟩),
   ("TRAP",
    ⟨"HIPHOP", [⟨"INTRO", 4⟩, ⟨"CHORUS", 8⟩, ⟨"VERSE", 16⟩, ⟨"CHORUS", 8⟩,
                ⟨"VERSE", 16⟩, ⟨"CHORUS", 8⟩, ⟨"OUTRO", 4⟩]⟩),
   ("BOOMBAP",
    ⟨"HIPHOP", [⟨"INTRO", 4⟩, ⟨"VERSE", 16⟩, ⟨"CHORUS", 4⟩, ⟨"VERSE", 16⟩,
                ⟨"CHORUS", 4⟩, ⟨"VERSE", 16⟩, ⟨"OUTRO", 8⟩]⟩),
   ("EDM_RADIO",
    ⟨"EDM", [⟨"INTRO", 8⟩, ⟨"VERSE", 8⟩, ⟨"PRE_CHORUS", 8⟩, ⟨"CHORUS", 8⟩,
             ⟨"VERSE", 8⟩, ⟨"PRE_CHORUS", 8⟩, ⟨"CHORUS", 16⟩, ⟨"OUTRO", 8⟩]⟩),
   ("EDM_CLUB",
    ⟨"EDM", [⟨"INTRO", 16⟩, ⟨"VERSE", 16⟩, ⟨"PRE_CHORUS", 8⟩, ⟨"CHORUS", 16⟩,
             ⟨"BRIDGE", 8⟩, ⟨"PRE_CHORUS", 8⟩, ⟨"CHORUS", 16⟩, ⟨"OUTRO", 16⟩]⟩),
   ("ROCK_CLASSIC",
    ⟨"ROCK", [⟨"INTRO", 4⟩, ⟨"VERSE", 8⟩, ⟨"CHORUS", 8⟩, ⟨"VERSE", 8⟩,
              ⟨"CHORUS", 8⟩, ⟨"SOLO", 8⟩, ⟨"CHORUS", 16⟩, ⟨"OUTRO", 4⟩]⟩),
   ("PUNK_ROCK",
    ⟨"ROCK", [⟨"INTRO", 4⟩, ⟨"VERSE", 8⟩, ⟨"CHORUS", 8⟩, ⟨"VERSE", 8⟩,
              ⟨"CHORUS", 8⟩, ⟨"OUTRO", 4⟩]⟩),
   ("LOFI_BEAT",
    ⟨"LOFI", [⟨"INTRO", 4⟩, ⟨"VERSE", 16⟩, ⟨"BRIDGE", 4⟩, ⟨"VERSE", 16⟩,
              ⟨"OUTRO", 8⟩]⟩),
   ("REGGAETON",
    ⟨"LATIN", [⟨"INTRO", 4⟩, ⟨"CHORUS", 8⟩, ⟨"VERSE", 16⟩, ⟨"CHORUS", 8⟩,
               ⟨"VERSE", 16⟩, ⟨"CHORUS", 8⟩, ⟨"OUTRO", 4⟩]⟩),
   ("PERSIAN_SLOW_6_8",
    ⟨"PERSIAN", [⟨"INTRO", 4⟩, ⟨"VERSE", 8⟩, ⟨"PRE_CHORUS", 4⟩, ⟨"CHORUS", 8⟩,
                 ⟨"SOLO", 8⟩, ⟨"VERSE", 8⟩, ⟨"CHORUS", 16⟩, ⟨"OUTRO", 8⟩]⟩),
   ("PERSIAN_POP_NOSTALGIA",
    ⟨"PERSIAN", [⟨"INTRO", 8⟩, ⟨"VERSE", 8⟩, ⟨"CHORUS", 8⟩, ⟨"VERSE", 8⟩,
                 ⟨"CHORUS", 8⟩, ⟨"BRIDGE", 8⟩, ⟨"CHORUS", 16⟩, ⟨"OUTRO", 8⟩]⟩)]

/-- `generateSongStructure(templateKey)` (MusicBrain.js:1733-1747): run-length
decode the template (fallback `POP_RADIO`). -/
def generateSongStructure (templateKey : String) : List String :=
  let t := (lookupStr songTemplates templateKey).getD popRadioTemplate
  (t.parts.map (fun p => List.replicate p.len p.type)).flatten

-- ---------------------------------------------------------------------------
-- Progression styles (MusicBrain.js:387-699) and getChordProgression
-- ---------------------------------------------------------------------------

/-- A progression style ("vibe"); `desc` is display-only and omitted. -/
structure ProgressionStyle where
  name : String
  preferredScale : String
  sections : List (String × List Nat)
deriving DecidableEq

/-- The `POP` style list, also the genre fallback. -/
def popStyles : List ProgressionStyle :=
  [⟨"The Axis of Awesome", "Major",
    [("INTRO", [0]), ("VERSE", [0, 4]), ("PRE_CHORUS", [5, 3]),
     ("CHORUS", [0, 4, 5, 3]), ("BRIDGE", [3, 4, 3, 4]), ("SOLO", [0, 4, 5, 3]),
     ("OUTRO", [0])]⟩,
   ⟨"Emotional Ballad", "Major",
    [("INTRO", [5, 3]), ("VERSE", [5, 3]), ("PRE_CHORUS", [1, 4]),
     ("CHORUS", [5, 3, 0, 4]), ("BRIDGE", [2, 5, 1, 4]), ("SOLO", [5, 3, 0, 4]),
     ("OUTRO", [3, 0])]⟩,
   ⟨"Doo-Wop / 50s", "Major",
    [("INTRO", [0, 5, 3, 4]), ("VERSE", [0, 5, 3, 4]), ("PRE_CHORUS", [3, 4]),
     ("CHORUS", [0, 5, 3, 4]), ("BRIDGE", [1, 4, 0, 4]), ("SOLO", [0, 5, 3, 4]),
     ("OUTRO", [0, 3, 0])]⟩,
   ⟨"Royal Road (Anime/Epic)", "Major",
    [("INTRO", [3, 4, 2, 5]), ("VERSE", [0, 4, 5, 0]), ("PRE_CHORUS", [3, 4]),
     ("CHORUS", [3, 4, 2, 5]), ("BRIDGE", [1, 4, 3, 4]), ("SOLO", [3, 4, 2, 5]),
     ("OUTRO", [3, 4, 0])]⟩,
   ⟨"Dreamy / Psychedelic", "Major",
    [("INTRO", [0, 3]), ("VERSE", [0, 3]), ("PRE_CHORUS", [1, 4]),
     ("CHORUS", [0, 3, 0, 3]), ("BRIDGE", [5, 2, 3, 4]), ("SOLO", [0, 3]),
     ("OUTRO", [0])]⟩,
   ⟨"80s Synth-Pop Revival", "Major",
    [("INTRO", [5, 5, 3, 3]), ("VERSE", [5, 0, 4, 3]), ("PRE_CHORUS", [1, 4]),
     ("CHORUS", [5, 3, 0, 4]), ("BRIDGE", [3, 4, 3, 4]), ("SOLO", [5, 3, 0, 4]),
     ("OUTRO", [5])]⟩,
   ⟨"Gen-Z Alternative", "Minor",
    [("INTRO", [5]), ("VERSE", [5, 3]), ("PRE_CHORUS", [0, 4]),
     ("CHORUS", [5, 2, 3, 4]), ("BRIDGE", [1, 6, 5]), ("OUTRO", [5])]⟩]

/-- `this.progressionStyles` (MusicBrain.js:387-699). -/
def progressionStyles : List (String × List ProgressionStyle) :=
  [("POP", popStyles),
   ("EDM",
    [⟨"Festival Anthem", "Minor",
      [("INTRO", [5]), ("VERSE", [5, 2]), ("PRE_CHORUS", [3, 4]),
       ("CHORUS", [5, 3, 0, 4]), ("DROP", [5, 3, 0, 4]), ("BRIDGE", [1, 4]),
       ("OUTRO", [5, 0])]⟩,
     ⟨"Summer Vibes", "Major",
      [("INTRO", [3, 0]), ("VERSE", [3, 0]), ("PRE_CHORUS", [1, 4]),
       ("CHORUS", [3, 0, 4, 5]), ("DROP", [3, 0, 4, 5]), ("BRIDGE", [1, 3, 4]),
       ("OUTRO", [3, 3, 0])]⟩]),
   ("HIPHOP",
    [⟨"Dark Trap", "Phrygian",
      [("INTRO", [0, 1]), ("VERSE", [0, 1]), ("PRE_CHORUS", [3, 4]),
       ("CHORUS", [0, 2, 0, 1]), ("BRIDGE", [3, 4]), ("OUTRO", [0])]⟩,
     ⟨"Melodic / Emo Rap", "Minor",
      [("INTRO", [5, 4]), ("VERSE", [5, 4]), ("PRE_CHORUS", [3, 4]),
       ("CHORUS", [3, 4, 5, 5]), ("BRIDGE", [1, 4]), ("OUTRO", [5])]⟩]),
   ("ROCK",
    [⟨"Arena Rock", "Mixolydian",
      [("INTRO", [0, 6, 3]), ("VERSE", [0, 3]), ("PRE_CHORUS", [5, 4]),
       ("CHORUS", [0, 6, 3, 4]), ("SOLO", [0, 6, 3]), ("BRIDGE", [1, 4]),
       ("OUTRO", [0, 0, 0])]⟩,
     ⟨"Alternative / Grunge", "Minor",
      [("INTRO", [5, 2]), ("VERSE", [5, 2]), ("PRE_CHORUS", [3, 4]),
       ("CHORUS", [5, 0, 4, 4]), ("SOLO", [5, 0, 4]), ("OUTRO", [5])]⟩]),
   ("LOFI",
    [⟨"Jazz Hop (2-5-1)", "Dorian",
      [("INTRO", [1, 4]), ("VERSE", [1, 4, 0, 5]), ("PRE_CHORUS", [3, 6]),
       ("CHORUS", [1, 4, 0, 0]), ("BRIDGE", [3, 4]), ("SOLO", [1, 4, 0]),
       ("OUTRO", [0])]⟩,
     ⟨"Nostalgic Drift", "Major",
      [("INTRO", [3]), ("VERSE", [3, 2]), ("PRE_CHORUS", [1, 4]),
       ("CHORUS", [3, 2, 1, 4]), ("BRIDGE", [5, 4]), ("OUTRO", [0])]⟩]),
   ("LATIN",
    [⟨"Despacito Vibe", "Major",
      [("INTRO", [5, 3]), ("VERSE", [5, 3]), ("PRE_CHORUS", [0, 4]),
       ("CHORUS", [5, 3, 0, 4]), ("BRIDGE", [1, 4]), ("SOLO", [5, 3, 0, 4]),
       ("OUTRO", [5])]⟩,
     ⟨"Party Starter", "Minor",
      [("INTRO", [1, 4]), ("VERSE", [1, 4]), ("PRE_CHORUS", [3, 4]),
       ("CHORUS", [1, 4, 5, 5]), ("SOLO", [1, 4, 5]), ("OUTRO", [1])]⟩]),
   ("PERSIAN",
    [⟨"Ghomayshi Vibe (Andalusian)", "HarmonicMinor",
      [("INTRO", [4, 4, 0, 0]), ("VERSE", [0, 6, 5, 4]), ("PRE_CHORUS", [3, 0, 3, 4]),
       ("CHORUS", [0, 6, 5, 4]), ("BRIDGE", [5, 6, 3, 4]), ("SOLO", [0, 6, 5, 4]),
       ("OUTRO", [4, 0])]⟩,
     ⟨"6/8 Persian Ballad", "HarmonicMinor",
      [("INTRO", [0, 3]), ("VERSE", [0, 3, 4, 0]), ("PRE_CHORUS", [3, 0, 4, 4]),
       ("CHORUS", [2, 5, 3, 4]), ("BRIDGE", [1, 4]), ("OUTRO", [0])]⟩])]

/-- Placeholder style for unreachable list accesses (`styles[0]` of an empty
list). -/
def defaultStyle : ProgressionStyle := ⟨"", "Major", []⟩

/-- `getStyleByVibe(genreKey, vibeIndex)` (MusicBrain.js:1774-1777):
`styles[vibeIndex] || styles[0]`. -/
def getStyleByVibe (genreKey : String) (vibeIndex : Nat) : ProgressionStyle :=
  let styles := (lookupStr progressionStyles genreKey).getD popStyles
  match styles.get? vibeIndex with
  | some s => s
  | none => styles.headD defaultStyle

/-- `getChordProgression(genreStyle, section)` (MusicBrain.js:1755-1769);
`styleSel` abstracts the `Math.random()` style-index draw. A section missing
from the chosen style falls directly to the fixed `[0, 5, 3, 4]`. -/
def getChordProgression (genreStyle : String) (styleSel : Nat) (sectionKey : String) :
    List Nat :=
  let styles := (lookupStr progressionStyles genreStyle).getD popStyles
  let selectedStyle := pickIdx styles styleSel defaultStyle
  (lookupStr selectedStyle.sections sectionKey).getD [0, 5, 3, 4]

/-- The chord-assignment loop of the `applyStructureBtn` handler
(src/unnamed/part_002:579-597): bar `i` resolves its section (Solo/Drop →
Chorus), takes the style's list for it (falling back Chorus → Verse → `[0]`),
and reads entry `i % length`. -/
def assignChordsToStructure (barStructure : List String) (style : ProgressionStyle) :
    List Nat :=
  (List.range barStructure.length).map (fun i =>
    let currentSection := barStructure.getD i ""
    let target := if currentSection = "SOLO" ∨ currentSection = "DROP" then "CHORUS"
      else currentSection
    let sectionChords :=
      match lookupStr style.sections target with
      | some l => l
      | none =>
          ((lookupStr style.sections "CHORUS").orElse
            (fun _ => lookupStr style.sections "VERSE")).getD [0]
    sectionChords.getD (i % sectionChords.length) 0)

-- ---------------------------------------------------------------------------
-- Arpeggiator styles (MusicBrain.js:710-743) and getArpPattern (1785-1800)
-- ---------------------------------------------------------------------------

/-- One arp pattern; `none` entries are rests. -/
structure ArpPattern where
  pattern : List (Option Int)
  rate : Nat
  gate : ℚ
deriving DecidableEq

/-- The `POP` arp table, also the genre fallback. -/
def popArp : List (String × ArpPattern) :=
  [("VERSE", ⟨[some 0, some 2], 2, 0.6⟩),
   ("CHORUS", ⟨[some 0, some 1, some 2, some 3, some 2, some 1], 1, 0.9⟩),
   ("BRIDGE", ⟨[some 0, some 3, some 1, some 2], 2, 1.1⟩)]

/-- `this.arpStyles` (MusicBrain.js:710-743). -/
def arpStyles : List (String × List (String × ArpPattern)) :=
  [("POP", popArp),
   ("EDM",
    [("VERSE", ⟨[some 0, none, some 0, none], 1, 0.4⟩),
     ("CHORUS", ⟨[some 0, some 2, some 3, some 2], 1, 0.8⟩),
     ("BUILDUP", ⟨[some 0, some 0, some 0, some 0, some 1, some 1, some 1, some 1], 1, 0.5⟩)]),
   ("ROCK",
    [("VERSE", ⟨[some 0, some 1, some 2, some 1], 2, 1.5⟩),
     ("CHORUS", ⟨[some 0, some 0, some 1, some 0, some 2, some 0], 1, 0.7⟩),
     ("SOLO", ⟨[some 0, some 1, some 2, some 3], 1, 0.8⟩)]),
   ("LOFI",
    [("VERSE", ⟨[some 0, some 1, some 2, some 3], 4, 1.2⟩),
     ("CHORUS", ⟨[some 0, some 2, some 1, some 3], 2, 1.0⟩),
     ("BRIDGE", ⟨[some 0, none, some 1, none], 4, 1.0⟩)]),
   ("LATIN",
    [("VERSE", ⟨[some 0, none, some 2], 2, 0.6⟩),
     ("CHORUS", ⟨[some 0, none, some 1, some 2, none, some 1], 1, 0.7⟩)]),
   ("HIPHOP",
    [("VERSE", ⟨[some 0, some 2], 4, 0.5⟩),
     ("CHORUS", ⟨[some 0, some 1, some 2], 2, 0.6⟩)]),
   ("PERSIAN",
    [("VERSE", ⟨[some 0, some 1, some 2, some 3], 2, 0.8⟩),
     ("CHORUS", ⟨[some 0, some 1, some 2, some 3, some 2, some 1], 2, 0.9⟩)])]

/-- `getArpPattern(genre, section)` (MusicBrain.js:1785-1800). -/
def getArpPattern (genre sectionKey : String) : Option ArpPattern :=
  let genreStyles := (lookupStr arpStyles genre).getD popArp
  if sectionKey = "INTRO" ∨ sectionKey = "OUTRO" then none
  else
    let target :=
      if sectionKey = "SOLO" ∨ sectionKey = "DROP" then "CHORUS"
      else if sectionKey = "PRE_CHORUS" then "VERSE"
      else sectionKey
    ((lookupStr genreStyles target).orElse
      (fun _ => lookupStr genreStyles "VERSE")).orElse
      (fun _ => lookupStr genreStyles "CHORUS")

-- ---------------------------------------------------------------------------
-- Spec-side definitions (for refinement-style comparisons)
-- ---------------------------------------------------------------------------

/-- The progression lookup as claim C3 describes it: fallback chain
section → Chorus → Verse → fixed default. Written from the spec's words, to be
compared with `getChordProgression`. -/
def chordProgressionSpecChain (genreStyle : String) (styleSel : Nat)
    (sectionKey : String) : List Nat :=
  let styles := (lookupStr progressionStyles genreStyle).getD popStyles
  let st := pickIdx styles styleSel defaultStyle
  (((lookupStr st.sections sectionKey).orElse
    (fun _ => lookupStr st.sections "CHORUS")).orElse
    (fun _ => lookupStr st.sections "VERSE")).getD [0, 5, 3, 4]

-- ---------------------------------------------------------------------------
-- Derived definitions used by the claim statements
-- ---------------------------------------------------------------------------

/-- The `pickSmoothNote` result for the final requested bar of a
`generateMelody` call: run the first `length - 1` bar iterations (the loop
prefix), then evaluate the pick the final bar makes at its first step
(cursor 0, a strong beat, phrase start iff `(length - 1) % 4 = 0`). `none`
when the prefix run throws or the chord lookup fails. -/
def melodyLastPick (startBar length : Nat) (complexity : String) (st : SongState)
    (rnd : MelodyRand) : Option Int :=
  match melodyLoop startBar length st rnd (generateMelodicRhythm complexity rnd.rhythmSel)
      (melodyScaleNotesOf st) (melodyTMin st startBar) (melodyTMax st startBar)
      (length - 1) 0 ([], -1) with
  | .error _ => none
  | .ok (_, lastM) =>
      match lookupStr chordDegrees st.scaleName with
      | none => none
      | some tbl =>
          match tbl.get? (chordIdxAt st (startBar + (length - 1))) with
          | none => none
          | some chord =>
              pickSmoothNote
                ⟨lastM, chord.intervals, st.rootKey, melodyScaleNotesOf st,
                  melodyTMin st startBar, melodyTMax st startBar, true,
                  decide ((length - 1) % 4 = 0)⟩
                (rnd.jitter (length - 1) 0)

/-- Total bar count of a template: the sum of its run lengths. -/
def totalBarsOfTemplate (t : SongTemplate) : Nat :=
  (t.parts.map (fun p => p.len)).sum

/-- Spec-side section resolution of claim C2: Solo/Drop map onto Chorus. -/
def resolveSoloDrop (s : String) : String :=
  if s = "SOLO" ∨ s = "DROP" then "CHORUS" else s

/-- Spec-side progression-list resolution of claim C2: the style's list for the
resolved section, falling back Chorus → Verse → `[0]`. -/
def resolvedProgression (style : ProgressionStyle) (s : String) : List Nat :=
  match lookupStr style.sections (resolveSoloDrop s) with
  | some l => l
  | none =>
      ((lookupStr style.sections "CHORUS").orElse
        (fun _ => lookupStr style.sections "VERSE")).getD [0]

/-- Spec-side per-bar chord of claim C2: bar `b` reads entry `b mod length` of
its resolved progression list. -/
def assignedChordSpec (barStructure : List String) (style : ProgressionStyle)
    (b : Nat) : Nat :=
  let l := resolvedProgression style (barStructure.getD b "")
  l.getD (b % l.length) 0

-- ---------------------------------------------------------------------------
-- Concrete states and oracles used by witnesses and counterexamples
-- ---------------------------------------------------------------------------

/-- A state whose scale name has no chord-degree table (the HIPHOP "Dark Trap"
style's preferred scale). -/
def stPhrygian : SongState := ⟨0, "Phrygian", 16, 1, [0], ["NONE"], "NONE"⟩

/-- A well-formed 4-bar verse state in C Major with a soprano range. -/
def stVerse : SongState :=
  ⟨0, "Major", 16, 4, [0, 3, 4, 0], ["VERSE", "VERSE", "VERSE", "VERSE"], "SOPRANO"⟩

/-- The all-zero melody oracle. -/
def rndZero : MelodyRand := ⟨0, fun _ => false, fun _ _ _ => 0⟩

/-- The all-zero Markov oracle. -/
def rndMarkovZero : MarkovRand := ⟨fun _ => 0, fun _ _ => 0, fun _ _ => 0, fun _ _ => 0⟩

/-- The note list of a concrete one-bar `generateMelody` call (the projection
keeps witness statements free of rational-velocity literals). -/
def melodyNotesW : List MelodyNote :=
  match generateMelody 0 1 "LOW" stVerse rndZero with
  | .ok ns => ns
  | .error _ => []

-- ===========================================================================
-- Proofs
-- ===========================================================================

/-- A successful `lookupStr` returns one of the listed values. -/
theorem lookupStr_mem {α : Type} {l : List (String × α)} {key : String} {v : α}
    (h : lookupStr l key = some v) : v ∈ l.map Prod.snd := by
  induction l with
  | nil => simp [lookupStr] at h
  | cons hd tl ih =>
      rw [lookupStr] at h
      by_cases hk : key = hd.1
      · simp [hk] at h
        simp [← h]
      · simp [hk] at h
        simpa using Or.inr (ih h)

theorem mem_intRange {lo hi m : Int} : m ∈ intRange lo hi ↔ lo ≤ m ∧ m ≤ hi := by
  constructor
  · intro h
    obtain ⟨k, hk, hkm⟩ := List.mem_map.mp h
    have hk' := List.mem_range.mp hk
    omega
  · intro h
    refine List.mem_map.mpr ⟨(m - lo).toNat, List.mem_range.mpr ?_, ?_⟩ <;> omega

theorem mem_getScaleNotes {rootKey m : Int} {scaleName : String} :
    m ∈ getScaleNotes rootKey scaleName ↔
      0 ≤ m ∧ m ≤ 126 ∧
        ((lookupStr scales scaleName).getD [0, 2, 4, 5, 7, 9, 11]).contains
          (jsRem (m - rootKey + 12) 12) := by
  constructor
  · intro h
    obtain ⟨i, hi, him⟩ := List.mem_map.mp h
    obtain ⟨hir, hip⟩ := List.mem_filter.mp hi
    have hir' := List.mem_range.mp hir
    refine ⟨by omega, by omega, ?_⟩
    rw [← him]
    exact hip
  · rintro ⟨h0, h1, hc⟩
    refine List.mem_map.mpr ⟨m.toNat, List.mem_filter.mpr ⟨List.mem_range.mpr ?_, ?_⟩, ?_⟩
    · omega
    · have : ((m.toNat : ℕ) : Int) = m := by omega
      rw [this]
      exact hc
    · omega

/-- On a non-negative dividend, the JS remainder is the mathematical one, and
shifting the dividend by 12 does not change it. -/
theorem jsRem_shift12 {a : Int} (h : 0 ≤ a + 12) : jsRem (a + 12) 12 = a % 12 := by
  unfold jsRem
  rw [Int.tmod_eq_emod h (by norm_num)]
  omega

/-- C1 (amended): for a root pitch class in 0..11 and any scale name present in
the scale table, `getScaleNotes(root, scaleName)` contains a MIDI value `m` in
0..126 iff `(m - root) mod 12` is one of the scale's offsets; MIDI 127 is never
a member, because the loop bound `i < 127` excludes it. -/
theorem getScaleNotes_mem_iff (rootKey : Int) (scaleName : String) (offs : List Int)
    (h0 : 0 ≤ rootKey) (h1 : rootKey ≤ 11)
    (hs : lookupStr scales scaleName = some offs) (m : Int) :
    m ∈ getScaleNotes rootKey scaleName ↔
      0 ≤ m ∧ m ≤ 126 ∧ (m - rootKey) % 12 ∈ offs := by
  rw [mem_getScaleNotes, hs]
  simp only [Option.getD_some]
  constructor
  · rintro ⟨hm0, hm1, hc⟩
    refine ⟨hm0, hm1, ?_⟩
    rw [jsRem_shift12 (by omega)] at hc
    exact List.elem_iff.mp hc
  · rintro ⟨hm0, hm1, hc⟩
    refine ⟨hm0, hm1, ?_⟩
    rw [jsRem_shift12 (by omega)]
    exact List.elem_iff.mpr hc

/-- Witness for C1: instantiates the theorem at root 0, Major, `m = 60`, whose
pitch class 0 is a Major offset, so 60 is in the set. -/
theorem getScaleNotes_mem_iff_witness :
    lookupStr scales "Major" = some [0, 2, 4, 5, 7, 9, 11] ∧
      (60 : Int) ∈ getScaleNotes 0 "Major" :=
  ⟨by decide,
   (getScaleNotes_mem_iff 0 "Major" [0, 2, 4, 5, 7, 9, 11] (by decide) (by decide)
      (by decide) 60).mpr (by decide)⟩

/-- Counterexample to C1 as stated: MIDI 127 has pitch class 7, a Major-scale
offset from root 0, yet `getScaleNotes(0, 'Major')` does not contain it. -/
theorem getScaleNotes_127_missing :
    ((127 : Int) - 0) % 12 ∈ [(0 : Int), 2, 4, 5, 7, 9, 11] ∧
      (127 : Int) ∉ getScaleNotes 0 "Major" := by decide

/-- C3 (amended): `getChordProgression` never throws (it is a total function):
an unknown genre falls back to the `'POP'` style list, a section present in the
chosen style is returned as-is, and a missing section falls directly to the
fixed default `[0, 5, 3, 4]` — with no intermediate Chorus/Verse lookup and no
reinterpretation against the style's scale degree count. -/
theorem getChordProgression_fallback (genreStyle sectionKey : String) (styleSel : Nat) :
    (lookupStr progressionStyles genreStyle = none →
      getChordProgression genreStyle styleSel sectionKey =
        getChordProgression "POP" styleSel sectionKey) ∧
    (∀ l, lookupStr (pickIdx ((lookupStr progressionStyles genreStyle).getD popStyles)
        styleSel defaultStyle).sections sectionKey = some l →
      getChordProgression genreStyle styleSel sectionKey = l) ∧
    (lookupStr (pickIdx ((lookupStr progressionStyles genreStyle).getD popStyles)
        styleSel defaultStyle).sections sectionKey = none →
      getChordProgression genreStyle styleSel sectionKey = [0, 5, 3, 4]) := by
  refine ⟨?_, ?_, ?_⟩
  · intro h
    unfold getChordProgression
    rw [h]
    rfl
  · intro l h
    unfold getChordProgression
    simp only []
    rw [h]
    rfl
  · intro h
    unfold getChordProgression
    simp only []
    rw [h]
    rfl

/-- Witness for C3: the unknown genre `'ZZZ'` resolves like `'POP'`, and the
`'POP'` style 0 has no `'DROP'` section, so the fixed default is returned. -/
theorem getChordProgression_fallback_witness :
    getChordProgression "ZZZ" 0 "CHORUS" = getChordProgression "POP" 0 "CHORUS" ∧
      getChordProgression "POP" 0 "DROP" = [0, 5, 3, 4] :=
  ⟨(getChordProgression_fallback "ZZZ" "CHORUS" 0).1 (by decide),
   (getChordProgression_fallback "POP" "DROP" 0).2.2 (by decide)⟩

/-- Counterexample to C3 as stated: for `'POP'` style 0 and section `'DROP'`
the claimed fallback chain would return the Chorus list `[0, 4, 5, 3]`, but the
code returns the fixed default `[0, 5, 3, 4]`. -/
theorem getChordProgression_no_chorus_chain :
    getChordProgression "POP" 0 "DROP" = [0, 5, 3, 4] ∧
      chordProgressionSpecChain "POP" 0 "DROP" = [0, 4, 5, 3] ∧
      getChordProgression "POP" 0 "DROP" ≠ chordProgressionSpecChain "POP" 0 "DROP" := by
  decide

/-- Every arp genre table (and the POP fallback) has a `'VERSE'` entry. -/
theorem arp_tables_have_verse :
    ∀ t ∈ arpStyles.map Prod.snd, (lookupStr t "VERSE").isSome := by decide

/-- C10: `getArpPattern(genre, section)` returns `null` exactly for the Intro
and Outro sections; every other section — unknown sections and unknown genres
included — resolves to a pattern via the genre → POP fallback, the
Solo/Drop → Chorus and PreChorus → Verse remapping, and the final
Verse-then-Chorus fallback. -/
theorem getArpPattern_none_iff (genre sectionKey : String) :
    getArpPattern genre sectionKey = none ↔
      sectionKey = "INTRO" ∨ sectionKey = "OUTRO" := by
  by_cases h : sectionKey = "INTRO" ∨ sectionKey = "OUTRO"
  · unfold getArpPattern
    simp [h]
  · have hgs : (lookupStr ((lookupStr arpStyles genre).getD popArp) "VERSE").isSome := by
      cases hh : lookupStr arpStyles genre with
      | none => decide
      | some t =>
          simpa using arp_tables_have_verse t (lookupStr_mem hh)
    obtain ⟨v, hv⟩ := Option.isSome_iff_exists.mp hgs
    unfold getArpPattern
    rw [if_neg h]
    simp only [iff_false_intro h, iff_false]
    intro hcontra
    cases ha : lookupStr ((lookupStr arpStyles genre).getD popArp)
        (if sectionKey = "SOLO" ∨ sectionKey = "DROP" then "CHORUS"
         else if sectionKey = "PRE_CHORUS" then "VERSE" else sectionKey) with
    | some t => rw [ha] at hcontra; simp [Option.orElse] at hcontra
    | none => rw [ha, hv] at hcontra; simp [Option.orElse] at hcontra

/-- C8: for a non-null chord definition, `analyzeBarHarmony` scores an empty
note list 100, and otherwise returns the JS-rounded percentage of notes whose
pitch class lies in the chord's allowed pitch-class set (root key plus each
chord interval, mod 12). -/
theorem analyzeBarHarmony_score (cd : ChordDef) (rootKey : Int) (barNotes : List Int) :
    analyzeBarHarmony [] (some cd) rootKey = 100 ∧
    (barNotes ≠ [] →
      analyzeBarHarmony barNotes (some cd) rootKey =
        jsRound (((barNotes.countP (fun n =>
            decide (∃ i ∈ cd.intervals, jsRem n 12 = jsRem (rootKey + i) 12))) : ℚ) /
          (barNotes.length : ℚ) * 100)) := by
  constructor
  · rfl
  · intro h
    unfold analyzeBarHarmony
    simp only []
    rw [if_neg (by simpa using h)]
    have hc : (barNotes.filter (fun n =>
        (cd.intervals.map (fun i => jsRem (rootKey + i) 12)).contains (jsRem n 12))).length =
        barNotes.countP (fun n =>
          decide (∃ i ∈ cd.intervals, jsRem n 12 = jsRem (rootKey + i) 12)) := by
      rw [List.countP_eq_length_filter]
      congr 1
      apply List.filter_congr
      intro a _
      rw [Bool.eq_iff_iff]
      simp only [List.elem_iff, List.mem_map, decide_eq_true_eq]
      constructor
      · rintro ⟨i, hi, hieq⟩
        exact ⟨i, hi, hieq.symm⟩
      · rintro ⟨i, hi, hieq⟩
        exact ⟨i, hi, hieq.symm⟩
    simp only [hc]

/-- Witness for C8: two notes, one in the C-major triad and one not, score a
rounded 50; the empty list scores 100. -/
theorem analyzeBarHarmony_score_witness :
    analyzeBarHarmony [] (some ⟨"I", "Major", [0, 4, 7]⟩) 0 = 100 ∧
      analyzeBarHarmony [60, 61] (some ⟨"I", "Major", [0, 4, 7]⟩) 0 = 50 :=
  ⟨(analyzeBarHarmony_score ⟨"I", "Major", [0, 4, 7]⟩ 0 []).1,
   by
    rw [(analyzeBarHarmony_score ⟨"I", "Major", [0, 4, 7]⟩ 0 [60, 61]).2 (by decide)]
    rw [show List.countP (fun n =>
        decide (∃ i ∈ (⟨"I", "Major", [0, 4, 7]⟩ : ChordDef).intervals,
          jsRem n 12 = jsRem (0 + i) 12)) [60, 61] = 1 from by decide]
    have h50 : ((1 : ℕ) : ℚ) / ((List.length [(60 : ℤ), 61] : ℕ) : ℚ) * 100 + 1/2 = 101/2 := by
      norm_num
    unfold jsRound
    rw [h50]
    rw [show ⌊(101 : ℚ)/2⌋ = 50 from by
      rw [Int.floor_eq_iff]
      norm_num]
    norm_num⟩

/-- C6: `pickSmoothNote` returns `null` (without throwing — the model is a
total function) when the range holds no scale note; otherwise, at a phrase
start or with no previous note (`lastMidi = -1`), it returns the middle
in-range chord tone, falling back to the middle in-range scale tone when the
chord-tone list is empty. -/
theorem pickSmoothNote_phrase_anchor (p : PickParams) (jitter : Nat → ℚ) :
    (scaleTonesIn p.scaleNotes p.min p.max = [] → pickSmoothNote p jitter = none) ∧
    (scaleTonesIn p.scaleNotes p.min p.max ≠ [] →
      (p.isPhraseStart = true ∨ p.lastMidi = -1) →
      pickSmoothNote p jitter = some (
        let scaleTones := scaleTonesIn p.scaleNotes p.min p.max
        let chordTones := scaleTones.filter (fun m =>
          (p.chordIntervals.map (fun i => jsRem (p.rootKey + i) 12)).contains (jsRem m 12))
        if chordTones.length > 0 then chordTones.getD (chordTones.length / 2) 0
        else scaleTones.getD (scaleTones.length / 2) 0)) := by
  constructor
  · intro h
    unfold pickSmoothNote
    simp only []
    rw [h]
    rfl
  · intro h hp
    unfold pickSmoothNote
    simp only []
    rw [if_neg (by simpa [List.isEmpty_iff] using h)]
    have hcond : (p.isPhraseStart || p.lastMidi == -1) = true := by
      rcases hp with hp | hp
      · simp [hp]
      · simp [hp]
    rw [if_pos hcond]
    exact (apply_ite some _ _ _).symm

/-- Witness for C6 (the spec's scenario): phrase start, chord with pitch
class 1 (no chord tone inside C4..E4 in C Major), so the pick falls back to
the middle in-range scale tone, 62. -/
theorem pickSmoothNote_phrase_anchor_witness :
    scaleTonesIn (getScaleNotes 0 "Major") 60 64 ≠ [] ∧
      pickSmoothNote ⟨-1, [1], 0, getScaleNotes 0 "Major", 60, 64, false, true⟩
        (fun _ => 0) = some 62 :=
  ⟨by decide,
   by
    rw [(pickSmoothNote_phrase_anchor
        ⟨-1, [1], 0, getScaleNotes 0 "Major", 60, 64, false, true⟩ (fun _ => 0)).2
      (by decide) (Or.inl rfl)]
    decide⟩

/-- C4 (amended): leaving a Chorus into a section that is neither Chorus nor
Outro, with 16 steps per bar and the transition flag set, the fill replaces
only steps 12..15: a single HI_TOM at 12, MID_TOM at 13, LO_TOM at 14 and
silence at 15, for every genre; steps 8..11 still play the steady-state
pattern (the fill guard is `s >= 12`, not `s >= 8`). -/
theorem getDrumPattern_chorus_descent (genre next : String)
    (hn1 : next ≠ "CHORUS") (hn2 : next ≠ "OUTRO") :
    getDrumPattern genre "CHORUS" next 12 16 true = [48] ∧
    getDrumPattern genre "CHORUS" next 13 16 true = [45] ∧
    getDrumPattern genre "CHORUS" next 14 16 true = [41] ∧
    getDrumPattern genre "CHORUS" next 15 16 true = [] ∧
    (∀ s, 8 ≤ s → s ≤ 11 →
      getDrumPattern genre "CHORUS" next s 16 true =
        getDrumPattern genre "CHORUS" next s 16 false) := by
  refine ⟨?_, ?_, ?_, ?_, ?_⟩
  · unfold getDrumPattern drumTransitionNotes
    simp [hn1, hn2]
  · unfold getDrumPattern drumTransitionNotes
    simp [hn1, hn2]
  · unfold getDrumPattern drumTransitionNotes
    simp [hn1, hn2]
  · unfold getDrumPattern drumTransitionNotes
    simp [hn1, hn2]
  · intro s h8 h11
    interval_cases s <;>
      · unfold getDrumPattern drumTransitionNotes
        simp [hn1, hn2]

/-- Witness for C4: at genre POP leaving a Chorus into a Verse, step 12 is the
lone HI_TOM and step 8 coincides with the steady-state pattern. -/
theorem getDrumPattern_chorus_descent_witness :
    getDrumPattern "POP" "CHORUS" "VERSE" 12 16 true = [48] ∧
      getDrumPattern "POP" "CHORUS" "VERSE" 8 16 true =
        getDrumPattern "POP" "CHORUS" "VERSE" 8 16 false :=
  ⟨(getDrumPattern_chorus_descent "POP" "VERSE" (by decide) (by decide)).1,
   (getDrumPattern_chorus_descent "POP" "VERSE" (by decide) (by decide)).2.2.2.2
     8 (by norm_num) (by norm_num)⟩

/-- Counterexample to C4 as stated: in a POP Chorus→Verse transition bar,
step 8 returns the steady-state kick and closed hat, with no tom at all. -/
theorem getDrumPattern_step8_not_fill :
    getDrumPattern "POP" "CHORUS" "VERSE" 8 16 true = [36, 42] ∧
      (48 : Nat) ∉ getDrumPattern "POP" "CHORUS" "VERSE" 8 16 true ∧
      (45 : Nat) ∉ getDrumPattern "POP" "CHORUS" "VERSE" 8 16 true ∧
      (41 : Nat) ∉ getDrumPattern "POP" "CHORUS" "VERSE" 8 16 true := by decide

/-- With 16 steps per bar and no transition, `getDrumPattern` reduces to the
steady-state base patterns. -/
theorem getDrumPattern_16_steady (genre cur next : String) (s : Nat) (hs : s < 16) :
    getDrumPattern genre cur next s 16 false =
      drumBaseNotes genre cur ((lookupStr drumPatterns genre).getD
        ⟨bits [1,0,0,0, 0,0,0,0, 1,0,0,0, 0,0,1,0],
         bits [0,0,0,0, 1,0,0,0, 0,0,0,0, 1,0,0,0],
         bits [1,1,1,1, 1,1,1,1, 1,1,1,1, 1,1,1,1]⟩) s s := by
  have e1 : s * 16 / 16 = s := by omega
  have e2 : s * 16 % 16 = 0 := by omega
  have e3 : s % 16 = s := by omega
  simp [getDrumPattern, e1, e2, e3]

/-- At step 0 of a Chorus or Solo bar the crash is always pushed, transition
flag or not (every transition branch falls through at step 0). -/
theorem crash_at_step0 (genre cur next : String) (t : Bool)
    (hc : cur = "CHORUS" ∨ cur = "SOLO") :
    (49 : Nat) ∈ getDrumPattern genre cur next 0 16 t := by
  have hbase : ∀ g c pt, c = "CHORUS" ∨ c = "SOLO" →
      (49 : Nat) ∈ drumBaseNotes g c pt 0 0 := by
    intro g c pt hcc
    unfold drumBaseNotes
    have hne : ¬ (c = "PRE_CHORUS") := by rcases hcc with rfl | rfl <;> decide
    rw [if_neg hne]
    simp only []
    refine List.mem_append_right _ ?_
    rw [if_pos ⟨hcc, trivial⟩]
    simp
  rcases hc with rfl | rfl <;>
    · rcases t with _ | _ <;>
        by_cases hnc : next = "CHORUS" <;> by_cases hno : next = "OUTRO" <;>
          simp [getDrumPattern, drumTransitionNotes, hnc, hno, hbase]

/-- Hat and crash layer of a steady-state Chorus/Solo bar, per base-pattern
analysis: open hat exactly on `s % 4 = 2`, closed hat elsewhere, crash exactly
at step 0 — for any genre other than TECHNO. -/
theorem mem_drumBaseNotes_chorus_solo (genre c : String) (pt : DrumRow) (s : Nat)
    (hg : genre ≠ "TECHNO") (hc : c = "CHORUS" ∨ c = "SOLO") :
    ((46 : Nat) ∈ drumBaseNotes genre c pt s s ↔ s % 4 = 2) ∧
    ((42 : Nat) ∈ drumBaseNotes genre c pt s s ↔ ¬ s % 4 = 2) ∧
    ((49 : Nat) ∈ drumBaseNotes genre c pt s s ↔ s = 0) := by
  rcases hc with rfl | rfl <;>
  · unfold drumBaseNotes
    rcases hk : pt.kick.getD s false <;> rcases hsn : pt.snare.getD s false <;>
      by_cases h2 : s % 4 = 2 <;> by_cases hz : s = 0 <;>
        simp [hg, hk, hsn, h2, hz]

/-- C7 (amended): in steady state, for every genre except TECHNO (whose table
keeps closed hats), a Chorus or Solo bar alternates hats every 4 steps with
the open hat on `s % 4 = 2`, and pushes the crash exactly when the step index
is 0 — and since the callers invoke `getDrumPattern` with bar-relative steps,
the crash lands on the first step of every bar of the section, not only on the
section's very first step. -/
theorem drums_chorus_hats_and_crash (genre cur next : String) (hg : genre ≠ "TECHNO")
    (hc : cur = "CHORUS" ∨ cur = "SOLO") (s : Nat) (hs : s < 16) :
    ((46 : Nat) ∈ getDrumPattern genre cur next s 16 false ↔ s % 4 = 2) ∧
    ((42 : Nat) ∈ getDrumPattern genre cur next s 16 false ↔ ¬ s % 4 = 2) ∧
    ((49 : Nat) ∈ getDrumPattern genre cur next s 16 false ↔ s = 0) ∧
    (∀ (bs : List String) (bar : Nat), bar < bs.length →
      (bs.getD bar "" = "CHORUS" ∨ bs.getD bar "" = "SOLO") →
      (49, bar * 16) ∈ drumSongNotes genre bs bs.length 16) := by
  have hsong : ∀ (bs : List String) (bar : Nat), bar < bs.length →
      (bs.getD bar "" = "CHORUS" ∨ bs.getD bar "" = "SOLO") →
      (49, bar * 16) ∈ drumSongNotes genre bs bs.length 16 := by
    intro bs bar hbar hsec
    unfold drumSongNotes
    apply List.mem_flatten.mpr
    refine ⟨_, List.mem_map.mpr ⟨bar, List.mem_range.mpr hbar, rfl⟩, ?_⟩
    apply List.mem_flatten.mpr
    refine ⟨_, List.mem_map.mpr ⟨0, List.mem_range.mpr (by norm_num), rfl⟩, ?_⟩
    refine List.mem_map.mpr ⟨49, crash_at_step0 _ _ _ _ hsec, ?_⟩
    simp
  rw [getDrumPattern_16_steady genre cur next s hs]
  have hb := mem_drumBaseNotes_chorus_solo genre cur
    ((lookupStr drumPatterns genre).getD
      ⟨bits [1,0,0,0, 0,0,0,0, 1,0,0,0, 0,0,1,0],
       bits [0,0,0,0, 1,0,0,0, 0,0,0,0, 1,0,0,0],
       bits [1,1,1,1, 1,1,1,1, 1,1,1,1, 1,1,1,1]⟩) s hg hc
  exact ⟨hb.1, hb.2.1, hb.2.2, hsong⟩

/-- Witness for C7: POP Chorus, step 2 carries the open hat and step 0 the
crash; the three-chorus-bar song carries a crash at the start of bar 1, a bar
that is not the section's first. -/
theorem drums_chorus_hats_and_crash_witness :
    ((46 : Nat) ∈ getDrumPattern "POP" "CHORUS" "CHORUS" 2 16 false) ∧
      ((49 : Nat) ∈ getDrumPattern "POP" "CHORUS" "CHORUS" 0 16 false) ∧
      (49, 16) ∈ drumSongNotes "POP" ["CHORUS", "CHORUS", "CHORUS"] 3 16 :=
  ⟨((drums_chorus_hats_and_crash "POP" "CHORUS" "CHORUS" (by decide) (Or.inl rfl) 2
      (by norm_num)).1).mpr (by norm_num),
   ((drums_chorus_hats_and_crash "POP" "CHORUS" "CHORUS" (by decide) (Or.inl rfl) 0
      (by norm_num)).2.2.1).mpr rfl,
   by
    have h := (drums_chorus_hats_and_crash "POP" "CHORUS" "CHORUS" (by decide)
      (Or.inl rfl) 0 (by norm_num)).2.2.2 ["CHORUS", "CHORUS", "CHORUS"] 1
      (by norm_num) (Or.inl rfl)
    simpa using h⟩

/-- Counterexample to C7 as stated: the TECHNO genre keeps its table-driven
closed hat at `s = 2` (no open hat), and the whole-song drum generator puts a
crash at absolute step 16 — the first step of the second of three consecutive
Chorus bars, not the section's very first step. -/
theorem drums_chorus_claim_false :
    (46 : Nat) ∉ getDrumPattern "TECHNO" "CHORUS" "CHORUS" 2 16 false ∧
      getDrumPattern "TECHNO" "CHORUS" "CHORUS" 2 16 false = [42] ∧
      (49, 16) ∈ drumSongNotes "POP" ["CHORUS", "CHORUS", "CHORUS"] 3 16 ∧
      ["CHORUS", "CHORUS", "CHORUS"].getD 0 "" = "CHORUS" := by decide

/-- Run-length decoding yields exactly the template's total bar count. -/
theorem generateSongStructure_length (templateKey : String) :
    (generateSongStructure templateKey).length =
      totalBarsOfTemplate ((lookupStr songTemplates templateKey).getD popRadioTemplate) := by
  unfold generateSongStructure totalBarsOfTemplate
  rw [List.length_flatten, List.map_map]
  congr 1
  apply List.map_congr_left
  intro p _
  simp

/-- Each chord-assignment entry follows the spec-side per-bar formula. -/
theorem assignChords_getD (bars : List String) (style : ProgressionStyle) (b : Nat)
    (hb : b < bars.length) :
    (assignChordsToStructure bars style).getD b 0 = assignedChordSpec bars style b := by
  unfold assignChordsToStructure
  have h1 : ((List.range bars.length).map (fun i =>
      let currentSection := bars.getD i ""
      let target := if currentSection = "SOLO" ∨ currentSection = "DROP" then "CHORUS"
        else currentSection
      let sectionChords :=
        match lookupStr style.sections target with
        | some l => l
        | none =>
            ((lookupStr style.sections "CHORUS").orElse
              (fun _ => lookupStr style.sections "VERSE")).getD [0]
      sectionChords.getD (i % sectionChords.length) 0))[b]? =
      some (assignedChordSpec bars style b) := by
    rw [List.getElem?_map]
    rw [List.getElem?_range hb]
    rfl
  rw [List.getD_eq_getElem?_getD, h1]
  rfl

/-- Every style list in the progression table is non-empty. -/
theorem progression_lists_nonempty :
    ∀ t ∈ progressionStyles.map Prod.snd, t ≠ [] := by decide

/-- `getStyleByVibe` always returns one of the styles in the table. -/
theorem getStyleByVibe_mem (g : String) (i : Nat) :
    getStyleByVibe g i ∈ (progressionStyles.map Prod.snd).flatten := by
  have hmem : ∀ (t : List ProgressionStyle), t ∈ progressionStyles.map Prod.snd →
      ∀ (s : ProgressionStyle), s ∈ t → s ∈ (progressionStyles.map Prod.snd).flatten := by
    intro t ht s hs
    exact List.mem_flatten.mpr ⟨t, ht, hs⟩
  have hpop : popStyles ∈ progressionStyles.map Prod.snd := by
    unfold progressionStyles
    exact List.mem_cons_self _ _
  unfold getStyleByVibe
  cases hh : lookupStr progressionStyles g with
  | none =>
      simp only [hh, Option.getD_none]
      cases hg : popStyles.get? i with
      | some s =>
          exact hmem popStyles hpop s (List.get?_mem hg)
      | none =>
          refine hmem popStyles hpop _ ?_
          cases hne : popStyles with
          | nil => exact absurd hne (by decide)
          | cons a l => simp
  | some t =>
      have ht : t ∈ progressionStyles.map Prod.snd := lookupStr_mem hh
      simp only [hh, Option.getD_some]
      cases hg : t.get? i with
      | some s => exact hmem t ht s (List.get?_mem hg)
      | none =>
          refine hmem t ht _ ?_
          cases hne : t with
          | nil => exact absurd (hne ▸ ht) (by
              intro hcontra
              exact progression_lists_nonempty [] hcontra rfl)
          | cons a l => simp

/-- Finite check over the whole style library: whenever a style's preferred
scale has a chord-degree table, that table is non-empty and every entry of
every section list is a valid index into it. -/
theorem progression_entries_valid :
    ∀ st ∈ (progressionStyles.map Prod.snd).flatten,
      ∀ tbl, lookupStr chordDegrees st.preferredScale = some tbl →
        0 < tbl.length ∧ ∀ l ∈ st.sections.map Prod.snd, ∀ x ∈ l, x < tbl.length := by
  decide

/-- Every entry of a resolved progression list is a valid chord index. -/
theorem resolvedProgression_element_lt (st : ProgressionStyle) (tbl : List ChordDef)
    (s : String) (h0 : 0 < tbl.length)
    (hv : ∀ l ∈ st.sections.map Prod.snd, ∀ x ∈ l, x < tbl.length) :
    ∀ x ∈ resolvedProgression st s, x < tbl.length := by
  intro x hx
  unfold resolvedProgression at hx
  cases ha : lookupStr st.sections (resolveSoloDrop s) with
  | some l =>
      rw [ha] at hx
      exact hv l (lookupStr_mem ha) x hx
  | none =>
      rw [ha] at hx
      cases hb : lookupStr st.sections "CHORUS" with
      | some c =>
          rw [hb] at hx
          simp only [Option.orElse, Option.getD_some] at hx
          exact hv c (lookupStr_mem hb) x hx
      | none =>
          rw [hb] at hx
          cases hc : lookupStr st.sections "VERSE" with
          | some v =>
              rw [hc] at hx
              simp only [Option.orElse, Option.getD_some] at hx
              exact hv v (lookupStr_mem hc) x hx
          | none =>
              rw [hc] at hx
              simp only [Option.orElse, Option.getD_none] at hx
              simp at hx
              omega

/-- A `getD (b % length)` read of a non-empty list is one of its elements. -/
theorem getD_mod_mem (l : List Nat) (b : Nat) (hne : l ≠ []) :
    l.getD (b % l.length) 0 ∈ l := by
  have hlt : b % l.length < l.length :=
    Nat.mod_lt _ (List.length_pos.mpr hne)
  rw [List.getD_eq_getElem l 0 hlt]
  exact List.getElem_mem hlt

/-- C2 (amended): expanding any template and assigning chords with any style
yields an array of length equal to the template's total bar count, whose bar
`b` holds entry `b mod length` of the progression list resolved for bar `b`'s
section (Solo/Drop → Chorus, then Chorus → Verse → `[0]` for missing
sections); whenever the style's preferred scale has a chord-degree table —
which the HIPHOP "Dark Trap" style's scale `'Phrygian'` does not — every
element is a valid index into that table. -/
theorem assignChords_structure_spec (templateKey genreKey : String) (vibeIdx : Nat) :
    (assignChordsToStructure (generateSongStructure templateKey)
        (getStyleByVibe genreKey vibeIdx)).length =
      totalBarsOfTemplate ((lookupStr songTemplates templateKey).getD popRadioTemplate) ∧
    (∀ b, b < (generateSongStructure templateKey).length →
      (assignChordsToStructure (generateSongStructure templateKey)
          (getStyleByVibe genreKey vibeIdx)).getD b 0 =
        assignedChordSpec (generateSongStructure templateKey)
          (getStyleByVibe genreKey vibeIdx) b) ∧
    (∀ tbl, lookupStr chordDegrees (getStyleByVibe genreKey vibeIdx).preferredScale
        = some tbl →
      ∀ b, b < (generateSongStructure templateKey).length →
        (assignChordsToStructure (generateSongStructure templateKey)
            (getStyleByVibe genreKey vibeIdx)).getD b 0 < tbl.length) := by
  refine ⟨?_, ?_, ?_⟩
  · rw [← generateSongStructure_length templateKey]
    unfold assignChordsToStructure
    rw [List.length_map, List.length_range]
  · intro b hb
    exact assignChords_getD _ _ b hb
  · intro tbl htbl b hb
    rw [assignChords_getD _ _ b hb]
    have hval := progression_entries_valid (getStyleByVibe genreKey vibeIdx)
      (getStyleByVibe_mem genreKey vibeIdx) tbl htbl
    unfold assignedChordSpec
    simp only []
    cases hl : resolvedProgression (getStyleByVibe genreKey vibeIdx)
        ((generateSongStructure templateKey).getD b "") with
    | nil => simpa using hval.1
    | cons a l =>
        refine resolvedProgression_element_lt _ tbl
          ((generateSongStructure templateKey).getD b "") hval.1 hval.2 _ ?_
        rw [hl]
        exact getD_mod_mem (a :: l) b (by simp)

/-- Witness for C2: the POP_RADIO template with POP style 0 produces 72 bars
whose first chord, index 0, is a valid index into the 7-chord Major table. -/
theorem assignChords_structure_spec_witness :
    lookupStr chordDegrees (getStyleByVibe "POP" 0).preferredScale =
      some ((lookupStr chordDegrees "Major").getD []) ∧
      (assignChordsToStructure (generateSongStructure "POP_RADIO")
          (getStyleByVibe "POP" 0)).length = 72 ∧
      (assignChordsToStructure (generateSongStructure "POP_RADIO")
          (getStyleByVibe "POP" 0)).getD 0 0 <
        ((lookupStr chordDegrees "Major").getD []).length :=
  ⟨by decide,
   by
    rw [(assignChords_structure_spec "POP_RADIO" "POP" 0).1]
    decide,
   (assignChords_structure_spec "POP_RADIO" "POP" 0).2.2
     ((lookupStr chordDegrees "Major").getD []) (by decide) 0 (by decide)⟩

/-- Counterexample to C2 as stated: the HIPHOP "Dark Trap" style prefers the
scale `'Phrygian'`, which has no chord-degree table at all, so for the TRAP
template (64 bars) no element can be "a valid index into the style's
chord-degree table". -/
theorem darkTrap_has_no_chord_table :
    (getStyleByVibe "HIPHOP" 0).preferredScale = "Phrygian" ∧
      lookupStr chordDegrees (getStyleByVibe "HIPHOP" 0).preferredScale = none ∧
      (generateSongStructure "TRAP").length = 64 ∧
      (assignChordsToStructure (generateSongStructure "TRAP")
          (getStyleByVibe "HIPHOP" 0)).length = 64 := by
  decide

/-- Every note placed for one bar lies inside that bar: its start is at least
`bar * stepsPerBar` and strictly before the bar end, and start plus duration
never exceeds the bar end. -/
theorem placeMelodyNotes_bounds (spb bar pos : Nat) (sec : String)
    (chordOpt : Option ChordDef) (rootKey : Int) (scaleNotes : List Int)
    (tMin tMax : Int) (jitter : Nat → Nat → ℚ) :
    ∀ (pat : List RhythmEntry) (cursor : Nat) (last : Int)
      (ns : List MelodyNote) (l : Int),
      placeMelodyNotes spb bar pos sec chordOpt rootKey scaleNotes tMin tMax jitter
        pat cursor last = .ok (ns, l) →
      ∀ n ∈ ns, bar * spb ≤ n.time ∧ n.time < (bar + 1) * spb ∧
        n.time + n.duration ≤ (bar + 1) * spb := by
  intro pat
  induction pat with
  | nil =>
      intro cursor last ns l h n hn
      rw [placeMelodyNotes] at h
      simp only [Except.ok.injEq, Prod.mk.injEq] at h
      rw [← h.1] at hn
      simp at hn
  | cons nd rest ih =>
      intro cursor last ns l h n hn
      rw [placeMelodyNotes] at h
      by_cases hcur : cursor ≥ spb
      · rw [if_pos hcur] at h
        simp only [Except.ok.injEq, Prod.mk.injEq] at h
        rw [← h.1] at hn
        simp at hn
      · rw [if_neg hcur] at h
        push_neg at hcur
        cases hr : nd.isRest with
        | true =>
            rw [hr] at h
            simp only [if_true] at h
            exact ih _ _ _ _ h n hn
        | false =>
            rw [hr] at h
            simp only [Bool.false_eq_true, if_false] at h
            cases chordOpt with
            | none => simp at h
            | some chord =>
                simp only [] at h
                cases hp : pickSmoothNote
                    ⟨last, chord.intervals, rootKey, scaleNotes, tMin, tMax,
                      decide (cursor % 4 = 0), decide (cursor = 0 ∧ pos = 0)⟩
                    (jitter cursor) with
                | none =>
                    rw [hp] at h
                    exact ih _ _ _ _ h n hn
                | some midi =>
                    rw [hp] at h
                    simp only [] at h
                    by_cases hm : midi ≠ 0
                    · rw [if_pos hm] at h
                      cases hrec : placeMelodyNotes spb bar pos sec (some chord) rootKey
                          scaleNotes tMin tMax jitter rest
                          (cursor + (if cursor + nd.duration > spb then spb - cursor
                            else nd.duration)) midi with
                      | error e => rw [hrec] at h; simp at h
                      | ok p =>
                          obtain ⟨ns', l'⟩ := p
                          rw [hrec] at h
                          simp only [Except.ok.injEq, Prod.mk.injEq] at h
                          rw [← h.1] at hn
                          rcases List.mem_cons.mp hn with hn | hn
                          · rw [hn]
                            dsimp only
                            have hmul : (bar + 1) * spb = bar * spb + spb := by ring
                            rw [hmul]
                            by_cases hclip : cursor + nd.duration > spb
                            · rw [if_pos hclip]
                              omega
                            · rw [if_neg hclip]
                              push_neg at hclip
                              omega
                          · exact ih _ _ _ _ hrec n hn
                    · rw [if_neg hm] at h
                      exact ih _ _ _ _ h n hn

/-- One bar iteration only appends notes lying inside bar `startBar + b`. -/
theorem melodyBarStep_bounds (startBar length : Nat) (st : SongState)
    (rnd : MelodyRand) (mr : List RhythmEntry) (sn : List Int) (tMin tMax : Int)
    (b : Nat) (acc acc2 : List MelodyNote × Int)
    (h : melodyBarStep startBar length st rnd mr sn tMin tMax b acc = .ok acc2) :
    ∀ n ∈ acc2.1, n ∈ acc.1 ∨
      ((startBar + b) * st.stepsPerBar ≤ n.time ∧
        n.time < (startBar + b + 1) * st.stepsPerBar ∧
        n.time + n.duration ≤ (startBar + b + 1) * st.stepsPerBar) := by
  intro n hn
  unfold melodyBarStep at h
  cases ht : lookupStr chordDegrees st.scaleName with
  | none => rw [ht] at h; simp at h
  | some tbl =>
      rw [ht] at h
      simp only [] at h
      cases hpl : placeMelodyNotes st.stepsPerBar (startBar + b) (b % 4)
          (sectionAtOrNone st (startBar + b)) (tbl.get? (chordIdxAt st (startBar + b)))
          st.rootKey sn tMin tMax (rnd.jitter b)
          (if sectionAtOrNone st (startBar + b) = "INTRO" then getIntroArpeggio
           else melodyBarPattern mr st.stepsPerBar b length rnd) 0 acc.2 with
      | error e => rw [hpl] at h; simp at h
      | ok p =>
          obtain ⟨ns', l'⟩ := p
          rw [hpl] at h
          simp only [Except.ok.injEq] at h
          rw [← h] at hn
          simp only [] at hn
          rcases List.mem_append.mp hn with hn | hn
          · exact Or.inl hn
          · exact Or.inr (placeMelodyNotes_bounds _ _ _ _ _ _ _ _ _ _ _ _ _ _ _ hpl n hn)

/-- Loop invariant: every note produced by the bar loop either was already in
the accumulator or lies inside one of the processed bars (all below
`totalBars`). -/
theorem melodyLoop_bounds (startBar length : Nat) (st : SongState)
    (rnd : MelodyRand) (mr : List RhythmEntry) (sn : List Int) (tMin tMax : Int) :
    ∀ (r b : Nat) (acc res : List MelodyNote × Int),
      melodyLoop startBar length st rnd mr sn tMin tMax r b acc = .ok res →
      ∀ n ∈ res.1, n ∈ acc.1 ∨
        ∃ j, b ≤ j ∧ j < b + r ∧ startBar + j < st.totalBars ∧
          (startBar + j) * st.stepsPerBar ≤ n.time ∧
          n.time < (startBar + j + 1) * st.stepsPerBar ∧
          n.time + n.duration ≤ (startBar + j + 1) * st.stepsPerBar := by
  intro r
  induction r with
  | zero =>
      intro b acc res h n hn
      rw [melodyLoop] at h
      simp only [Except.ok.injEq] at h
      rw [← h] at hn
      exact Or.inl hn
  | succ r ih =>
      intro b acc res h n hn
      rw [melodyLoop] at h
      by_cases hstop : startBar + b ≥ st.totalBars
      · rw [if_pos hstop] at h
        simp only [Except.ok.injEq] at h
        rw [← h] at hn
        exact Or.inl hn
      · rw [if_neg hstop] at h
        push_neg at hstop
        cases hstep : melodyBarStep startBar length st rnd mr sn tMin tMax b acc with
        | error e => rw [hstep] at h; simp at h
        | ok acc2 =>
            rw [hstep] at h
            simp only [] at h
            rcases ih (b + 1) acc2 res h n hn with hin | ⟨j, hj1, hj2, hj3, hj4⟩
            · rcases melodyBarStep_bounds startBar length st rnd mr sn tMin tMax
                  b acc acc2 hstep n hin with hin' | hb
              · exact Or.inl hin'
              · exact Or.inr ⟨b, le_refl b, by omega, hstop, hb⟩
            · exact Or.inr ⟨j, by omega, by omega, hj3, hj4⟩

/-- Every duration produced by the (effective) `generateGoodMotif` is at
least 1 (`Math.max(1, Math.floor(d))`). -/
theorem generateGoodMotif_pos (c : String) (spb sel : Nat) :
    ∀ e ∈ generateGoodMotif c spb sel, 0 < e.dur := by
  intro e he
  unfold generateGoodMotif at he
  obtain ⟨d, _, hde⟩ := List.mem_map.mp he
  rw [← hde]
  simp only []
  have h1 : (1 : ℤ) ≤ max 1 ⌊d⌋ := le_max_left 1 ⌊d⌋
  have h2 : (1 : ℚ) ≤ ((max 1 ⌊d⌋ : ℤ) : ℚ) := by exact_mod_cast h1
  linarith

/-- `variateMotif` keeps durations positive: a split half of a duration at
least 4 is at least 2. -/
theorem variateMotif_pos (m : List MotifEntry) (hm : ∀ e ∈ m, 0 < e.dur) :
    ∀ e ∈ variateMotif m, 0 < e.dur := by
  induction m with
  | nil => intro e he; simp [variateMotif] at he
  | cons a rest ih =>
      intro e he
      rw [variateMotif] at he
      by_cases hc : a.dur ≥ 4 ∧ a.isRest = false
      · rw [if_pos hc] at he
        have hhalf : (0 : ℚ) < ((⌊a.dur / 2⌋ : ℤ) : ℚ) := by
          have h2 : (2 : ℤ) ≤ ⌊a.dur / 2⌋ := by
            rw [Int.le_floor]
            push_cast
            linarith [hc.1]
          have h3 : (2 : ℚ) ≤ ((⌊a.dur / 2⌋ : ℤ) : ℚ) := by exact_mod_cast h2
          linarith
        rcases List.mem_cons.mp he with rfl | he
        · exact hhalf
        · rcases List.mem_cons.mp he with rfl | he
          · exact hhalf
          · exact hm e (List.mem_cons_of_mem _ he)
      · rw [if_neg hc] at he
        rcases List.mem_cons.mp he with rfl | he
        · exact hm e (List.mem_cons_self _ _)
        · exact ih (fun x hx => hm x (List.mem_cons_of_mem _ hx)) e he

/-- Markov note placement stays inside its bar, provided the pattern's
durations are positive and the cursor starts non-negative. -/
theorem markovPlaceNotes_bounds (spb beat : ℚ) (bar : Nat) (sec : String)
    (vr cc : List Int) (rnd : MarkovRand) (b : Nat) :
    ∀ (pat : List MotifEntry) (cursor : ℚ) (noteIdx : Nat) (last : Int),
      (∀ e ∈ pat, 0 < e.dur) → 0 ≤ cursor →
      ∀ n ∈ (markovPlaceNotes spb beat bar sec vr cc rnd b pat cursor noteIdx last).1,
        (bar : ℚ) * spb ≤ n.time ∧ n.time + n.duration ≤ ((bar : ℚ) + 1) * spb := by
  intro pat
  induction pat with
  | nil =>
      intro cursor noteIdx last _ _ n hn
      rw [markovPlaceNotes] at hn
      simp at hn
  | cons nd rest ih =>
      intro cursor noteIdx last hpat hcur n hn
      rw [markovPlaceNotes] at hn
      by_cases hstop : cursor ≥ spb
      · rw [if_pos hstop] at hn
        simp at hn
      · rw [if_neg hstop] at hn
        push_neg at hstop
        have hdpos : 0 < (if cursor + nd.dur > spb then spb - cursor else nd.dur) := by
          by_cases hclip : cursor + nd.dur > spb
          · rw [if_pos hclip]
            linarith
          · rw [if_neg hclip]
            exact hpat nd (List.mem_cons_self _ _)
        have hcd : cursor + (if cursor + nd.dur > spb then spb - cursor else nd.dur) ≤ spb := by
          by_cases hclip : cursor + nd.dur > spb
          · rw [if_pos hclip]
            linarith
          · rw [if_neg hclip]
            linarith [not_lt.mp hclip]
        cases hr : nd.isRest with
        | true =>
            rw [hr] at hn
            simp only [if_true] at hn
            exact ih _ _ _ (fun x hx => hpat x (List.mem_cons_of_mem _ hx))
              (by linarith) n hn
        | false =>
            rw [hr] at hn
            simp only [Bool.false_eq_true, if_false] at hn
            rcases List.mem_cons.mp hn with rfl | hn
            · have hexp : ((bar : ℚ) + 1) * spb = (bar : ℚ) * spb + spb := by ring
              constructor
              · dsimp only
                linarith
              · dsimp only
                rw [hexp]
                linarith
            · exact ih _ _ _ (fun x hx => hpat x (List.mem_cons_of_mem _ hx))
                (by linarith) n hn

/-- One Markov bar appends only notes lying inside bar `startBar + b`. -/
theorem markovBarStep_bounds (spb beat : ℚ)
    (motifBank : List (String × List MotifEntry)) (verseMotif : List MotifEntry)
    (allScaleNotes : List Int) (chordNotesMap : Nat → List Int)
    (structureList : List String) (startBar : Nat) (rnd : MarkovRand)
    (b : Nat) (last : Int)
    (hbank : ∀ m ∈ motifBank.map Prod.snd, ∀ e ∈ m, 0 < e.dur)
    (hverse : ∀ e ∈ verseMotif, 0 < e.dur) (hbeat : 0 < beat) :
    ∀ n ∈ (markovBarStep spb beat motifBank verseMotif allScaleNotes chordNotesMap
        structureList startBar rnd b last).1,
      ((startBar + b : Nat) : ℚ) * spb ≤ n.time ∧
        n.time + n.duration ≤ (((startBar + b : Nat) : ℚ) + 1) * spb := by
  intro n hn
  unfold markovBarStep at hn
  have hbase : ∀ e ∈ (lookupStr motifBank
      (match structureList.get? (startBar + b) with
       | some s => if s = "" then "VERSE" else s
       | none => "VERSE")).getD verseMotif, 0 < e.dur := by
    cases hl : lookupStr motifBank
        (match structureList.get? (startBar + b) with
         | some s => if s = "" then "VERSE" else s
         | none => "VERSE") with
    | none => simpa using hverse
    | some m =>
        simp only [Option.getD_some]
        exact hbank m (lookupStr_mem hl)
  have hpat : ∀ e ∈ (if b % 4 = 3 then
        [(⟨beat * 2, false⟩ : MotifEntry), ⟨beat * 2, true⟩]
      else if b % 4 = 2 then
        variateMotif ((lookupStr motifBank
          (match structureList.get? (startBar + b) with
           | some s => if s = "" then "VERSE" else s
           | none => "VERSE")).getD verseMotif)
      else (lookupStr motifBank
          (match structureList.get? (startBar + b) with
           | some s => if s = "" then "VERSE" else s
           | none => "VERSE")).getD verseMotif), 0 < e.dur := by
    by_cases h3 : b % 4 = 3
    · rw [if_pos h3]
      intro e he
      rcases List.mem_cons.mp he with rfl | he
      · simpa using by linarith
      · rcases List.mem_cons.mp he with rfl | he
        · simpa using by linarith
        · simp at he
    · rw [if_neg h3]
      by_cases h2 : b % 4 = 2
      · rw [if_pos h2]
        exact variateMotif_pos _ hbase
      · rw [if_neg h2]
        exact hbase
  exact markovPlaceNotes_bounds spb beat (startBar + b) _ _ _ rnd b _ 0 0 last
    hpat (le_refl 0) n hn

/-- Loop invariant for the Markov bar loop: every generated note lies inside
one of the processed bars. -/
theorem markovLoop_bounds (spb beat : ℚ)
    (motifBank : List (String × List MotifEntry)) (verseMotif : List MotifEntry)
    (allScaleNotes : List Int) (chordNotesMap : Nat → List Int)
    (structureList : List String) (startBar : Nat) (rnd : MarkovRand)
    (hbank : ∀ m ∈ motifBank.map Prod.snd, ∀ e ∈ m, 0 < e.dur)
    (hverse : ∀ e ∈ verseMotif, 0 < e.dur) (hbeat : 0 < beat) :
    ∀ (r b : Nat) (last : Int),
      ∀ n ∈ markovLoop spb beat motifBank verseMotif allScaleNotes chordNotesMap
          structureList startBar rnd r b last,
        ∃ j, b ≤ j ∧ j < b + r ∧
          ((startBar + j : Nat) : ℚ) * spb ≤ n.time ∧
          n.time + n.duration ≤ (((startBar + j : Nat) : ℚ) + 1) * spb := by
  intro r
  induction r with
  | zero =>
      intro b last n hn
      rw [markovLoop] at hn
      simp at hn
  | succ r ih =>
      intro b last n hn
      rw [markovLoop] at hn
      rcases List.mem_append.mp hn with hn | hn
      · exact ⟨b, le_refl b, by omega,
          markovBarStep_bounds spb beat motifBank verseMotif allScaleNotes
            chordNotesMap structureList startBar rnd b last hbank hverse hbeat n hn⟩
      · obtain ⟨j, hj1, hj2, hj3⟩ := ih (b + 1) _ n hn
        exact ⟨j, by omega, by omega, hj3⟩

/-- C9: every note returned by `generateMelody` (when it returns) and by
`generateMelodyMarkov` lies entirely inside one bar of the requested window
`[startBar, startBar + length)`: its start time is at least `bar × stepsPerBar`
and start plus duration never exceeds `(bar + 1) × stepsPerBar`, so no note
crosses a bar boundary or falls outside the window. -/
theorem generated_notes_stay_in_their_bar
    (startBar length : Nat) (complexity : String) (st : SongState)
    (rnd : MelodyRand) (ns : List MelodyNote)
    (root : Int) (scaleName : String) (chordNotesMap : Nat → List Int)
    (startBar2 numBars : Nat) (complexity2 : String) (st2 : SongState)
    (rndM : MarkovRand)
    (hok : generateMelody startBar length complexity st rnd = .ok ns) :
    (∀ n ∈ ns, ∃ bar, startBar ≤ bar ∧ bar < startBar + length ∧
      bar * st.stepsPerBar ≤ n.time ∧
      n.time + n.duration ≤ (bar + 1) * st.stepsPerBar) ∧
    (∀ n ∈ generateMelodyMarkov root scaleName chordNotesMap startBar2 numBars
        complexity2 st2 rndM,
      ∃ bar, startBar2 ≤ bar ∧ bar < startBar2 + numBars ∧
        ((bar : ℚ)) * ((if st2.stepsPerBar = 0 then 16 else st2.stepsPerBar : Nat) : ℚ)
          ≤ n.time ∧
        n.time + n.duration ≤
          ((bar : ℚ) + 1) *
            ((if st2.stepsPerBar = 0 then 16 else st2.stepsPerBar : Nat) : ℚ)) := by
  constructor
  · intro n hn
    unfold generateMelody at hok
    cases hrun : melodyRun startBar length complexity st rnd with
    | error e => rw [hrun] at hok; simp [Except.map] at hok
    | ok p =>
        rw [hrun] at hok
        simp only [Except.map, Except.ok.injEq] at hok
        unfold melodyRun at hrun
        have := melodyLoop_bounds startBar length st rnd
          (generateMelodicRhythm complexity rnd.rhythmSel) (melodyScaleNotesOf st)
          (melodyTMin st startBar) (melodyTMax st startBar) length 0 ([], -1) p hrun n
          (by rw [hok]; exact hn)
        rcases this with hin | ⟨j, _, hj2, _, hj4, _, hj6⟩
        · simp at hin
        · exact ⟨startBar + j, by omega, by omega, hj4, hj6⟩
  · intro n hn
    unfold generateMelodyMarkov at hn
    have hspb : (0 : ℚ) < ((if st2.stepsPerBar = 0 then 16 else st2.stepsPerBar : Nat) : ℚ) := by
      by_cases hz : st2.stepsPerBar = 0
      · rw [hz]
        norm_num
      · rw [if_neg hz]
        exact_mod_cast Nat.pos_of_ne_zero hz
    have hbeat : (0 : ℚ) <
        ((if st2.stepsPerBar = 0 then 16 else st2.stepsPerBar : Nat) : ℚ) / 4 := by
      linarith
    obtain ⟨j, hj1, hj2, hj3, hj4⟩ := markovLoop_bounds _ _ _ _ _ _ _ _ _
      (by
        intro m hm e he
        simp only [List.map_cons, List.map_nil, List.mem_cons,
          List.not_mem_nil, or_false] at hm
        rcases hm with h | h | h | h | h <;>
          · rw [h] at he
            exact generateGoodMotif_pos _ _ _ e he)
      (generateGoodMotif_pos _ _ _) hbeat numBars 0 (-1) n hn
    exact ⟨startBar2 + j, by omega, by omega, hj3, hj4⟩

/-- Witness for C9: a concrete one-bar call returns successfully and the
theorem places each of its notes inside the requested window. -/
theorem generated_notes_stay_in_their_bar_witness :
    generateMelody 0 1 "LOW" stVerse rndZero = Except.ok melodyNotesW ∧
      (∀ n ∈ melodyNotesW, ∃ bar, 0 ≤ bar ∧ bar < 0 + 1 ∧
        bar * stVerse.stepsPerBar ≤ n.time ∧
        n.time + n.duration ≤ (bar + 1) * stVerse.stepsPerBar) := by
  have hok : generateMelody 0 1 "LOW" stVerse rndZero = Except.ok melodyNotesW := by
    unfold melodyNotesW
    cases h : generateMelody 0 1 "LOW" stVerse rndZero with
    | ok ns => rfl
    | error e =>
        have hIsOk : (generateMelody 0 1 "LOW" stVerse rndZero).isOk = true := by rfl
        rw [h] at hIsOk
        simp [Except.isOk, Except.toBool] at hIsOk
  exact ⟨hok, (generated_notes_stay_in_their_bar 0 1 "LOW" stVerse rndZero melodyNotesW
    0 "Major" (fun _ => []) 0 1 "LOW" stVerse rndMarkovZero hok).1⟩

/-- Peeling the last iteration off the melody bar loop. -/
theorem melodyLoop_succ (startBar length : Nat) (st : SongState) (rnd : MelodyRand)
    (mr : List RhythmEntry) (sn : List Int) (tMin tMax : Int) :
    ∀ (r b : Nat) (acc : List MelodyNote × Int),
      melodyLoop startBar length st rnd mr sn tMin tMax (r + 1) b acc =
        match melodyLoop startBar length st rnd mr sn tMin tMax r b acc with
        | .error e => .error e
        | .ok acc' =>
            if startBar + (b + r) ≥ st.totalBars then .ok acc'
            else
              match melodyBarStep startBar length st rnd mr sn tMin tMax (b + r) acc' with
              | .ok acc2 => .ok acc2
              | .error e => .error e := by
  intro r
  induction r with
  | zero =>
      intro b acc
      rw [melodyLoop, melodyLoop]
      simp only [Nat.add_zero]
      by_cases hstop : startBar + b ≥ st.totalBars
      · rw [if_pos hstop, if_pos hstop]
      · rw [if_neg hstop, if_neg hstop]
        cases hstep : melodyBarStep startBar length st rnd mr sn tMin tMax b acc with
        | error e => rfl
        | ok acc2 =>
            simp only []
            rw [melodyLoop]
  | succ r ih =>
      intro b acc
      by_cases hstop : startBar + b ≥ st.totalBars
      · have hstop2 : startBar + (b + (r + 1)) ≥ st.totalBars := by omega
        rw [melodyLoop, if_pos hstop, melodyLoop, if_pos hstop]
        simp only []
        rw [if_pos hstop2]
      · rw [melodyLoop, if_neg hstop, melodyLoop, if_neg hstop]
        cases hstep : melodyBarStep startBar length st rnd mr sn tMin tMax b acc with
        | error e => rfl
        | ok acc2 =>
            simp only []
            rw [ih (b + 1) acc2]
            have harith : b + (r + 1) = b + 1 + r := by omega
            rw [harith]

/-- The final requested bar (offset `length - 1`) takes the single-sustain
branch of the rhythm selection and emits at most one note: the picked pitch,
at the bar's first step, lasting a whole bar — emitted exactly when the pick
is truthy (non-zero). -/
theorem melodyBarStep_last (startBar length : Nat) (st : SongState) (rnd : MelodyRand)
    (mr : List RhythmEntry) (acc : List MelodyNote × Int) (tbl : List ChordDef)
    (chord : ChordDef)
    (hspb : 0 < st.stepsPerBar)
    (hsec : sectionAtOrNone st (startBar + (length - 1)) ≠ "INTRO")
    (htbl : lookupStr chordDegrees st.scaleName = some tbl)
    (hch : tbl.get? (chordIdxAt st (startBar + (length - 1))) = some chord) :
    melodyBarStep startBar length st rnd mr (melodyScaleNotesOf st)
        (melodyTMin st startBar) (melodyTMax st startBar) (length - 1) acc =
      match pickSmoothNote
          ⟨acc.2, chord.intervals, st.rootKey, melodyScaleNotesOf st,
            melodyTMin st startBar, melodyTMax st startBar, true,
            decide ((length - 1) % 4 = 0)⟩ (rnd.jitter (length - 1) 0) with
      | some v =>
          if v ≠ 0 then
            .ok (acc.1 ++ [⟨v, (startBar + (length - 1)) * st.stepsPerBar,
              st.stepsPerBar,
              melodyVel (sectionAtOrNone st (startBar + (length - 1))) true⟩], v)
          else .ok (acc.1, acc.2)
      | none => .ok (acc.1, acc.2) := by
  unfold melodyBarStep
  rw [htbl]
  simp only []
  rw [melodyBarPattern, if_pos rfl]
  rw [if_neg hsec]
  rw [placeMelodyNotes]
  rw [if_neg (by omega : ¬ (0 : Nat) ≥ st.stepsPerBar)]
  simp only []
  rw [hch]
  simp only []
  rw [if_neg (by omega : ¬ 0 + st.stepsPerBar > st.stepsPerBar)]
  rw [if_neg (by simp : ¬ false = true)]
  rw [show decide True = true from rfl]
  rw [show decide (True ∧ (length - 1) % 4 = 0) = decide ((length - 1) % 4 = 0)
    from decide_eq_decide.mpr (by simp)]
  cases hp : pickSmoothNote
      ⟨acc.2, chord.intervals, st.rootKey, melodyScaleNotesOf st,
        melodyTMin st startBar, melodyTMax st startBar, true,
        decide ((length - 1) % 4 = 0)⟩ (rnd.jitter (length - 1) 0) with
  | none =>
      simp only []
      rw [placeMelodyNotes]
      simp
  | some v =>
      simp only []
      by_cases hv : v ≠ 0
      · rw [if_pos hv, if_pos hv]
        rw [placeMelodyNotes]
        simp only [Except.ok.injEq, Prod.mk.injEq]
        constructor
        · simp [Nat.add_zero]
        · trivial
      · rw [if_neg hv, if_neg hv]
        rw [placeMelodyNotes]
        simp

/-- C5 (amended): when the final requested bar lies within the song, its
section is not an Intro, `stepsPerBar` is positive, and the final-bar pick
resolves (`melodyLastPick = some v` — which also requires the scale name to
have a chord-degree table, the processed chord indices to be valid, and the
adjusted vocal range to contain a scale note, since the pick would otherwise
be `none`), `generateMelody` succeeds and the final bar's portion of the
output (the notes at or after the bar's first step) is exactly one sustained
note of duration `stepsPerBar` starting at the bar's first step — unless the
picked pitch is MIDI 0, which the truthiness check `if (generatedMidi)` drops,
leaving the final bar empty. -/
theorem generateMelody_final_bar_sustain (startBar length : Nat)
    (complexity : String) (st : SongState) (rnd : MelodyRand) (v : Int)
    (hlen : 1 ≤ length)
    (hin : startBar + length ≤ st.totalBars)
    (hspb : 0 < st.stepsPerBar)
    (hsec : sectionAtOrNone st (startBar + (length - 1)) ≠ "INTRO")
    (hpick : melodyLastPick startBar length complexity st rnd = some v) :
    ∃ ns, generateMelody startBar length complexity st rnd = .ok ns ∧
      (v ≠ 0 → ns.filter (fun n =>
          decide ((startBar + (length - 1)) * st.stepsPerBar ≤ n.time)) =
        [⟨v, (startBar + (length - 1)) * st.stepsPerBar, st.stepsPerBar,
          melodyVel (sectionAtOrNone st (startBar + (length - 1))) true⟩]) ∧
      (v = 0 → ns.filter (fun n =>
          decide ((startBar + (length - 1)) * st.stepsPerBar ≤ n.time)) = []) := by
  unfold melodyLastPick at hpick
  cases hrun : melodyLoop startBar length st rnd
      (generateMelodicRhythm complexity rnd.rhythmSel) (melodyScaleNotesOf st)
      (melodyTMin st startBar) (melodyTMax st startBar) (length - 1) 0 ([], -1) with
  | error e => rw [hrun] at hpick; simp at hpick
  | ok acc =>
      rw [hrun] at hpick
      simp only [] at hpick
      cases htb : lookupStr chordDegrees st.scaleName with
      | none => rw [htb] at hpick; simp at hpick
      | some tbl =>
          rw [htb] at hpick
          simp only [] at hpick
          cases hch : tbl.get? (chordIdxAt st (startBar + (length - 1))) with
          | none => rw [hch] at hpick; simp at hpick
          | some chord =>
              rw [hch] at hpick
              simp only [] at hpick
              have hdec := melodyLoop_succ startBar length st rnd
                (generateMelodicRhythm complexity rnd.rhythmSel) (melodyScaleNotesOf st)
                (melodyTMin st startBar) (melodyTMax st startBar) (length - 1) 0 ([], -1)
              rw [show (length - 1) + 1 = length from by omega] at hdec
              have hrunFull : melodyRun startBar length complexity st rnd =
                  melodyBarStep startBar length st rnd
                    (generateMelodicRhythm complexity rnd.rhythmSel)
                    (melodyScaleNotesOf st) (melodyTMin st startBar)
                    (melodyTMax st startBar) (length - 1) acc := by
                unfold melodyRun
                rw [hdec, hrun]
                simp only []
                rw [if_neg (by omega : ¬ startBar + (0 + (length - 1)) ≥ st.totalBars)]
                rw [Nat.zero_add]
                cases hstep : melodyBarStep startBar length st rnd
                    (generateMelodicRhythm complexity rnd.rhythmSel)
                    (melodyScaleNotesOf st) (melodyTMin st startBar)
                    (melodyTMax st startBar) (length - 1) acc with
                | error e => rfl
                | ok acc2 => rfl
              rw [melodyBarStep_last startBar length st rnd
                (generateMelodicRhythm complexity rnd.rhythmSel) acc tbl chord
                hspb hsec htb hch] at hrunFull
              rw [hpick] at hrunFull
              simp only [] at hrunFull
              have hpre : ∀ n ∈ acc.1,
                  decide ((startBar + (length - 1)) * st.stepsPerBar ≤ n.time) = false := by
                intro n hn
                rcases melodyLoop_bounds startBar length st rnd
                    (generateMelodicRhythm complexity rnd.rhythmSel)
                    (melodyScaleNotesOf st) (melodyTMin st startBar)
                    (melodyTMax st startBar) (length - 1) 0 ([], -1) acc hrun n hn with
                  hn0 | ⟨j, _, hj2, _, _, hj5, _⟩
                · simp at hn0
                · have hle : (startBar + j + 1) * st.stepsPerBar ≤
                      (startBar + (length - 1)) * st.stepsPerBar :=
                    Nat.mul_le_mul_right _ (by omega)
                  simp only [decide_eq_false_iff_not]
                  omega
              by_cases hv : v ≠ 0
              · rw [if_pos hv] at hrunFull
                refine ⟨acc.1 ++ [⟨v, (startBar + (length - 1)) * st.stepsPerBar,
                  st.stepsPerBar,
                  melodyVel (sectionAtOrNone st (startBar + (length - 1))) true⟩], ?_, ?_, ?_⟩
                · unfold generateMelody
                  rw [hrunFull]
                  rfl
                · intro _
                  rw [List.filter_append]
                  rw [List.filter_eq_nil_iff.mpr (by
                    intro n hn
                    rw [hpre n hn]
                    simp)]
                  simp
                · intro hv0
                  exact absurd hv0 hv
              · rw [if_neg hv] at hrunFull
                push_neg at hv
                refine ⟨acc.1, ?_, ?_, ?_⟩
                · unfold generateMelody
                  rw [hrunFull]
                  rfl
                · intro hcontra
                  exact absurd hv hcontra
                · intro _
                  rw [List.filter_eq_nil_iff.mpr (by
                    intro n hn
                    rw [hpre n hn]
                    simp)]

/-- C5 witness: on a concrete one-bar C-Major verse call the final-bar pick is
MIDI 72 and the theorem yields the single whole-bar sustained note. -/
theorem generateMelody_final_bar_sustain_witness :
    melodyLastPick 0 1 "LOW" stVerse rndZero = some 72 ∧
    (∃ ns, generateMelody 0 1 "LOW" stVerse rndZero = .ok ns ∧
      ((72 : Int) ≠ 0 → ns.filter (fun n =>
          decide ((0 + (1 - 1)) * stVerse.stepsPerBar ≤ n.time)) =
        [⟨72, (0 + (1 - 1)) * stVerse.stepsPerBar, stVerse.stepsPerBar,
          melodyVel (sectionAtOrNone stVerse (0 + (1 - 1))) true⟩]) ∧
      ((72 : Int) = 0 → ns.filter (fun n =>
          decide ((0 + (1 - 1)) * stVerse.stepsPerBar ≤ n.time)) = [])) :=
  ⟨rfl, generateMelody_final_bar_sustain 0 1 "LOW" stVerse rndZero 72
    (by decide) (by decide) (by decide) (by decide) rfl⟩

/-- C5 counterexample to the original wording: the Phrygian state satisfies all
of the claim's provisos (final bar within `totalBars`, section not Intro, the
adjusted vocal range holds scale notes), yet `generateMelody` emits no note at
all for the final bar — it throws, because `chordDegrees` has no Phrygian
table. -/
theorem generateMelody_phrygian_no_sustain :
    (0 : Nat) + 1 ≤ stPhrygian.totalBars ∧
    sectionAtOrNone stPhrygian (0 + (1 - 1)) ≠ "INTRO" ∧
    scaleTonesIn (melodyScaleNotesOf stPhrygian)
      (melodyTMin stPhrygian 0) (melodyTMax stPhrygian 0) ≠ [] ∧
    generateMelody 0 1 "LOW" stPhrygian rndZero =
      .error "TypeError: chordDegrees[scaleName] is undefined" :=
  ⟨by decide, by decide, by decide, rfl⟩
